import Mathlib

/-!
# Verification of the trainer-pro active-session and payment engine

A shallow embedding, in Lean 4, of the data model and the router
operations of the `trainer-pro` backend (`src/backend/app`), together
with theorems settling the behavioural claims about payment
reconciliation, the active-session resolver, the session lifecycle and
the two aggregation queries.

Timestamps are modelled as natural numbers, the SQL tables as Lean
lists inside a `Store` record, and each router handler as a pure
function (fallible handlers return `Except ApiError _`).  Autoincrement
primary keys are modelled with explicit `next…Id` counters on the
store.
-/

namespace TrainerPro

/-- `SessionStatus` — the four statuses of `app/models/session.py`. -/
inductive SessionStatus where
  | scheduled
  | in_progress
  | completed
  | cancelled
deriving DecidableEq, Repr

/-- `TrainingSession` row (`app/models/session.py`), restricted to the
columns the routers under verification read or write. -/
structure TrainingSession where
  id : Nat
  trainer_id : Nat
  client_id : Nat
  location_id : Option Nat := none
  session_group_id : Option Nat := none
  scheduled_at : Nat
  started_at : Option Nat := none
  duration_minutes : Nat := 60
  notes : Option String := none
  status : SessionStatus := .scheduled
  is_paid : Bool := false
  paid_at : Option Nat := none
deriving DecidableEq, Repr

/-- `SessionGroup` row (`app/models/session_group.py`). -/
structure SessionGroup where
  id : Nat
  trainer_id : Nat
  location_id : Option Nat := none
  scheduled_at : Nat
  duration_minutes : Nat := 60
  notes : Option String := none
deriving DecidableEq, Repr

/-- `Payment` row (`app/models/payment.py`). -/
structure Payment where
  id : Nat
  client_id : Nat
  trainer_id : Nat
  sessions_paid : Nat
  amount_cop : Nat
  payment_date : Nat
  notes : Option String := none
deriving DecidableEq, Repr

/-- The free-form `data` dict of a session exercise, restricted to the
keys the code reads or writes (`lap_times_ms` etc., see
`save_lap_times` and `get_client_lap_times_by_location`). -/
structure ExerciseData where
  lap_times_ms : Option (List Nat) := none
  total_duration_ms : Option Nat := none
  lap_count : Option Nat := none
  client_id : Option Nat := none
deriving DecidableEq, Repr

/-- `SessionExercise` row (`app/models/session_exercise.py`). -/
structure SessionExercise where
  id : Nat
  session_id : Option Nat := none
  session_group_id : Option Nat := none
  exercise_template_id : Option Nat := none
  exercise_set_id : Option Nat := none
  custom_name : Option String := none
  data : ExerciseData := {}
  order_index : Nat := 0
deriving DecidableEq, Repr

/-- `ExerciseSet` row (`app/models/exercise_set.py`). -/
structure ExerciseSet where
  id : Nat
  session_id : Option Nat := none
  session_group_id : Option Nat := none
  name : String
  series : Nat
  order_index : Nat := 0
deriving DecidableEq, Repr

/-- `Location` row (`app/models/location.py`), restricted to the columns
used by the lap-time aggregation. -/
structure Location where
  id : Nat
  trainer_id : Nat
  name : String
deriving DecidableEq, Repr

/-- The entity store: one list per table, plus autoincrement counters. -/
structure Store where
  sessions : List TrainingSession := []
  groups : List SessionGroup := []
  payments : List Payment := []
  exercises : List SessionExercise := []
  exerciseSets : List ExerciseSet := []
  locations : List Location := []
  nextSessionId : Nat := 1
  nextGroupId : Nat := 1
  nextPaymentId : Nat := 1
  nextExerciseId : Nat := 1
  nextSetId : Nat := 1
deriving DecidableEq, Repr

/-- Synchronous failure of a handler: `notFound` is a raised
`HTTPException` 404; `internalError` is an uncaught Python exception
escaping the handler (HTTP 500), such as the `AttributeError` raised
when a handler dereferences a field its Pydantic request model does not
declare. -/
inductive ApiError where
  | notFound
  | internalError
deriving DecidableEq, Repr

/-- The status filter `status.in_([COMPLETED, SCHEDULED, IN_PROGRESS])`
used by both the balance query and the payment-candidate query in
`app/routers/clients.py`. -/
def isBillableStatus : SessionStatus → Bool
  | .completed => true
  | .scheduled => true
  | .in_progress => true
  | .cancelled => false

/-! ## Payment reconciliation (`app/routers/clients.py`) -/

/-- Response shape of `GET /clients/{id}/payment-balance`
(`PaymentBalanceResponse`). -/
structure PaymentBalance where
  total_sessions : Nat
  paid_sessions : Nat
  unpaid_sessions : Nat
  prepaid_sessions : Int
  has_positive_balance : Bool
  total_amount_paid_cop : Nat
deriving DecidableEq, Repr

/-- The sessions counted by the balance query: the client's sessions
with status in {completed, scheduled, in_progress}. -/
def clientBillableSessions (store : Store) (cid : Nat) : List TrainingSession :=
  store.sessions.filter (fun s => s.client_id == cid && isBillableStatus s.status)

/-- The client's payment rows (`Payment.client_id == client_id`). -/
def clientPayments (store : Store) (cid : Nat) : List Payment :=
  store.payments.filter (fun p => p.client_id == cid)

/-- `get_client_payment_balance` (`app/routers/clients.py`). -/
def getClientPaymentBalance (store : Store) (cid : Nat) : PaymentBalance :=
  let sessions := clientBillableSessions store cid
  let total_sessions := sessions.length
  let paid_sessions := (sessions.filter (fun s => s.is_paid)).length
  let unpaid_sessions := total_sessions - paid_sessions
  let total_paid_through_payments := ((clientPayments store cid).map (fun p => p.sessions_paid)).sum
  let total_amount_paid_cop := ((clientPayments store cid).map (fun p => p.amount_cop)).sum
  let prepaid_sessions : Int := max 0 ((total_paid_through_payments : Int) - total_sessions)
  { total_sessions := total_sessions
    paid_sessions := paid_sessions
    unpaid_sessions := unpaid_sessions
    prepaid_sessions := prepaid_sessions
    has_positive_balance := prepaid_sessions > 0
    total_amount_paid_cop := total_amount_paid_cop }

/-- Request body of `POST /clients/{id}/payments` (`PaymentCreate`). -/
structure PaymentCreate where
  sessions_paid : Nat
  amount_cop : Nat
  notes : Option String := none
  payment_date : Option Nat := none
deriving DecidableEq, Repr

/-- `ORDER BY scheduled_at ASC` on training sessions. -/
def byScheduledAsc (a b : TrainingSession) : Prop :=
  a.scheduled_at ≤ b.scheduled_at

instance : DecidableRel byScheduledAsc := fun _ _ => Nat.decLe _ _

instance : IsTotal TrainingSession byScheduledAsc :=
  ⟨fun a b => Nat.le_total a.scheduled_at b.scheduled_at⟩

instance : IsTrans TrainingSession byScheduledAsc :=
  ⟨fun _ _ _ h h' => Nat.le_trans h h'⟩

/-- The unpaid-session filter of `register_client_payment`: the client's
sessions with `is_paid = False` and billable status. -/
def clientUnpaidBillable (store : Store) (cid : Nat) : List TrainingSession :=
  store.sessions.filter
    (fun s => s.client_id == cid && !s.is_paid && isBillableStatus s.status)

/-- The sessions selected by `register_client_payment`: unpaid billable
sessions of the client, ordered by `scheduled_at` ascending, limited to
`sessions_paid` rows. -/
def paymentCandidates (store : Store) (cid : Nat) (k : Nat) : List TrainingSession :=
  ((clientUnpaidBillable store cid).insertionSort byScheduledAsc).take k

/-- `register_client_payment` (`app/routers/clients.py`): append one
`Payment` row, then mark the selected sessions paid with
`paid_at = now`.  `tid` is the authenticated trainer (the owner of the
client, checked by `_get_client_owned_by` before this body runs). -/
def registerClientPayment (store : Store) (cid tid : Nat) (pd : PaymentCreate) (now : Nat) :
    Store :=
  let payment : Payment :=
    { id := store.nextPaymentId
      client_id := cid
      trainer_id := tid
      sessions_paid := pd.sessions_paid
      amount_cop := pd.amount_cop
      payment_date := pd.payment_date.getD now
      notes := pd.notes }
  let paidIds := (paymentCandidates store cid pd.sessions_paid).map (fun s => s.id)
  { store with
    payments := store.payments ++ [payment]
    nextPaymentId := store.nextPaymentId + 1
    sessions := store.sessions.map (fun s =>
      if paidIds.contains s.id then { s with is_paid := true, paid_at := some now } else s) }

/-! ## Session lifecycle and active-session resolver (`app/routers/sessions.py`) -/

/-- `SELECT … WHERE id == sid` point lookup (`scalar_one_or_none`). -/
def findSession (store : Store) (sid : Nat) : Option TrainingSession :=
  store.sessions.find? (fun s => s.id == sid)

/-- Response of `GET /sessions/active` / `POST /sessions/active/start`:
either a single session or a session group with its child sessions. -/
inductive ActiveSessionResult where
  | single (s : TrainingSession)
  | group (g : SessionGroup) (sessions : List TrainingSession)
deriving DecidableEq, Repr

/-- Ordering on nullable timestamps: `none` (SQL NULL) sorts above
every value, matching PostgreSQL (the database this backend runs on:
`app/config.py` defaults to `postgresql+asyncpg`), where NULLs come
last under `ASC` and hence first under `DESC`. -/
def optNatLe : Option Nat → Option Nat → Prop
  | none, none => True
  | none, some _ => False
  | some _, none => True
  | some x, some y => x ≤ y

instance : DecidableRel optNatLe
  | none, none => .isTrue trivial
  | none, some _ => .isFalse id
  | some _, none => .isTrue trivial
  | some _, some _ => Nat.decLe _ _

/-- `ORDER BY started_at DESC` on training sessions. -/
def byStartedDesc (a b : TrainingSession) : Prop :=
  optNatLe b.started_at a.started_at

instance : DecidableRel byStartedDesc := fun a b =>
  inferInstanceAs (Decidable (optNatLe b.started_at a.started_at))

/-- `ORDER BY scheduled_at DESC` on session groups. -/
def byGroupScheduledDesc (a b : SessionGroup) : Prop :=
  b.scheduled_at ≤ a.scheduled_at

instance : DecidableRel byGroupScheduledDesc := fun _ _ => Nat.decLe _ _

/-- The first query of `get_active_session`: the trainer's `in_progress`
sessions with no session group. -/
def standaloneInProgress (store : Store) (tid : Nat) : List TrainingSession :=
  store.sessions.filter (fun s =>
    s.trainer_id == tid && s.status == SessionStatus.in_progress && s.session_group_id.isNone)

/-- Join predicate of the second query of `get_active_session`: the
group has at least one `in_progress` child session. -/
def groupHasInProgressChild (store : Store) (g : SessionGroup) : Bool :=
  store.sessions.any (fun s =>
    s.session_group_id == some g.id && s.status == SessionStatus.in_progress)

/-- The `sessions` relationship of a group (`selectinload`). -/
def groupSessions (store : Store) (gid : Nat) : List TrainingSession :=
  store.sessions.filter (fun s => s.session_group_id == some gid)

/-- The trainer's groups with an `in_progress` child, ordered by the
group's `scheduled_at` descending. -/
def activeGroupCandidates (store : Store) (tid : Nat) : List SessionGroup :=
  (store.groups.filter (fun g =>
    g.trainer_id == tid && groupHasInProgressChild store g)).insertionSort byGroupScheduledDesc

/-- `get_active_session` (`GET /sessions/active`): first take the most
recently started standalone `in_progress` session; only if none exists,
take the most recently scheduled group with an `in_progress` child. -/
def getActiveSession (store : Store) (tid : Nat) : Option ActiveSessionResult :=
  match ((standaloneInProgress store tid).insertionSort byStartedDesc).head? with
  | some s => some (.single s)
  | none =>
    ((activeGroupCandidates store tid).head?).map
      (fun g => .group g (groupSessions store g.id))

/-- Request body of `POST /sessions/active/start`
(`StartActiveSessionRequest`, `app/schemas/session.py`): it declares no
`trainer_id` field (its docstring defers that to the session token). -/
structure StartActiveSessionRequest where
  session_id : Option Nat := none
  client_ids : List Nat
  duration_minutes : Nat := 60
  location_id : Option Nat := none
  notes : Option String := none
deriving DecidableEq, Repr

/-- `start_active_session` (`POST /sessions/active/start`).  With a
`session_id`, the existing session is set to `in_progress` with
`started_at = now` (no guard on its current status).  Without one, the
handler dereferences `data.trainer_id` before creating any row; since
`StartActiveSessionRequest` declares no `trainer_id` and Pydantic drops
undeclared body fields, that branch raises `AttributeError` (HTTP 500)
and mutates nothing. -/
def startActiveSession (store : Store) (data : StartActiveSessionRequest) (now : Nat) :
    Except ApiError (Store × ActiveSessionResult) :=
  match data.session_id with
  | some sid =>
    match findSession store sid with
    | none => .error .notFound
    | some s =>
      .ok ({ store with
              sessions := store.sessions.map (fun t =>
                if t.id == sid then { t with status := .in_progress, started_at := some now }
                else t) },
           .single { s with status := .in_progress, started_at := some now })
  | none => .error .internalError

/-- Request body of `POST /sessions` (`SessionCreate`,
`app/schemas/session.py`): no `trainer_id` field. -/
structure SessionCreate where
  client_id : Nat
  location_id : Option Nat := none
  scheduled_at : Nat
  duration_minutes : Nat := 60
  notes : Option String := none
  status : SessionStatus := .scheduled
deriving DecidableEq, Repr

/-- `create_session` (`POST /sessions`): the handler's first action is
to build a `TrainingSession` from `session_data.trainer_id`, a field
`SessionCreate` does not declare — the request always raises
`AttributeError` (HTTP 500) and creates nothing. -/
def createSession (_store : Store) (_sc : SessionCreate) :
    Except ApiError (Store × TrainingSession) :=
  .error .internalError

/-- Request body of `POST /sessions/group` (`SessionGroupCreate`,
`app/schemas/session.py`): no `trainer_id` field. -/
structure SessionGroupCreate where
  client_ids : List Nat
  location_id : Option Nat := none
  scheduled_at : Nat
  duration_minutes : Nat := 60
  notes : Option String := none
deriving DecidableEq, Repr

/-- `create_session_group` (`POST /sessions/group`): the handler builds
the `SessionGroup` from `group_data.trainer_id`, a field
`SessionGroupCreate` does not declare — the request always raises
`AttributeError` (HTTP 500) and creates nothing. -/
def createSessionGroup (_store : Store) (_gd : SessionGroupCreate) :
    Except ApiError (Store × SessionGroup) :=
  .error .internalError

/-- Request body of `PUT /sessions/{id}` (`SessionUpdate`), restricted
to the columns the model stores; `none` means the field was unset in
the request (`exclude_unset`). -/
structure SessionUpdate where
  client_id : Option Nat := none
  scheduled_at : Option Nat := none
  duration_minutes : Option Nat := none
  notes : Option String := none
  status : Option SessionStatus := none
deriving DecidableEq, Repr

/-- The `setattr` loop of `update_session`: apply every provided field. -/
def applySessionUpdate (t : TrainingSession) (upd : SessionUpdate) : TrainingSession :=
  { t with
    client_id := upd.client_id.getD t.client_id
    scheduled_at := upd.scheduled_at.getD t.scheduled_at
    duration_minutes := upd.duration_minutes.getD t.duration_minutes
    notes := match upd.notes with
      | some n => some n
      | none => t.notes
    status := upd.status.getD t.status }

/-- `update_session` (`PUT /sessions/{id}`): apply every provided field
of the update, including any requested status, with no lifecycle guard. -/
def updateSession (store : Store) (sid : Nat) (upd : SessionUpdate) :
    Except ApiError Store :=
  match findSession store sid with
  | none => .error .notFound
  | some _ =>
    .ok { store with
          sessions := store.sessions.map (fun t =>
            if t.id == sid then applySessionUpdate t upd else t) }

/-- `delete_session` (`DELETE /sessions/{id}`): soft cancel, a status
change to `cancelled` with no row removal. -/
def deleteSession (store : Store) (sid : Nat) : Except ApiError Store :=
  match findSession store sid with
  | none => .error .notFound
  | some _ =>
    .ok { store with
          sessions := store.sessions.map (fun t =>
            if t.id == sid then { t with status := .cancelled } else t) }

/-- `toggle_session_payment` (`PATCH /sessions/{id}/payment`): flip
`is_paid`; `paid_at` becomes `now` when turning paid, `NULL` otherwise. -/
def toggleSessionPayment (store : Store) (sid : Nat) (now : Nat) : Except ApiError Store :=
  match findSession store sid with
  | none => .error .notFound
  | some _ =>
    .ok { store with
          sessions := store.sessions.map (fun t =>
            if t.id == sid then
              { t with
                is_paid := !t.is_paid
                paid_at := if !t.is_paid then some now else none }
            else t) }

/-! ## Session exercises and exercise sets
(`app/routers/session_exercises.py`, `app/routers/exercise_sets.py`,
`save_lap_times` in `app/routers/sessions.py`).  The exercise-template
`usage_count` bump is outside every claim and is not modelled. -/

/-- Request body of the session-exercise creation endpoints
(`SessionExerciseCreate`; the router overwrites its `session_id` /
`session_group_id` from the path, so only the payload fields remain). -/
structure SessionExerciseCreate where
  exercise_template_id : Option Nat := none
  custom_name : Option String := none
  data : ExerciseData := {}
  order_index : Nat := 0
deriving DecidableEq, Repr

/-- `create_session_exercise`
(`POST /session-exercises/sessions/{session_id}/exercises`): the new
row gets `session_id` from the path and `session_group_id = NULL`. -/
def createSessionExercise (store : Store) (sid : Nat) (xc : SessionExerciseCreate) :
    Except ApiError Store :=
  match findSession store sid with
  | none => .error .notFound
  | some _ =>
    .ok { store with
          exercises := store.exercises ++
            [{ id := store.nextExerciseId
               session_id := some sid
               session_group_id := none
               exercise_template_id := xc.exercise_template_id
               exercise_set_id := none
               custom_name := xc.custom_name
               data := xc.data
               order_index := xc.order_index }]
          nextExerciseId := store.nextExerciseId + 1 }

/-- `create_session_group_exercise`
(`POST /session-exercises/session-groups/{group_id}/exercises`): the
new row gets `session_group_id` from the path and `session_id = NULL`. -/
def createSessionGroupExercise (store : Store) (gid : Nat) (xc : SessionExerciseCreate) :
    Except ApiError Store :=
  match store.groups.find? (fun g => g.id == gid) with
  | none => .error .notFound
  | some _ =>
    .ok { store with
          exercises := store.exercises ++
            [{ id := store.nextExerciseId
               session_id := none
               session_group_id := some gid
               exercise_template_id := xc.exercise_template_id
               exercise_set_id := none
               custom_name := xc.custom_name
               data := xc.data
               order_index := xc.order_index }]
          nextExerciseId := store.nextExerciseId + 1 }

/-- Request body of `PUT /session-exercises/{exercise_id}`
(`SessionExerciseUpdate`): the updatable fields; the parent links are
not updatable. -/
structure SessionExerciseUpdate where
  exercise_template_id : Option Nat := none
  custom_name : Option String := none
  data : Option ExerciseData := none
  order_index : Option Nat := none
deriving DecidableEq, Repr

/-- `update_session_exercise` (`PUT /session-exercises/{exercise_id}`). -/
def updateSessionExercise (store : Store) (exid : Nat) (upd : SessionExerciseUpdate) :
    Except ApiError Store :=
  match store.exercises.find? (fun e => e.id == exid) with
  | none => .error .notFound
  | some _ =>
    .ok { store with
          exercises := store.exercises.map (fun e =>
            if e.id == exid then
              { e with
                exercise_template_id := match upd.exercise_template_id with
                  | some v => some v
                  | none => e.exercise_template_id
                custom_name := match upd.custom_name with
                  | some n => some n
                  | none => e.custom_name
                data := upd.data.getD e.data
                order_index := upd.order_index.getD e.order_index }
            else e) }

/-- `delete_session_exercise` (`DELETE /session-exercises/{exercise_id}`):
a true row deletion. -/
def deleteSessionExercise (store : Store) (exid : Nat) : Except ApiError Store :=
  match store.exercises.find? (fun e => e.id == exid) with
  | none => .error .notFound
  | some _ =>
    .ok { store with exercises := store.exercises.filter (fun e => !(e.id == exid)) }

/-- One exercise of an `ExerciseSetCreate` payload (`ExerciseInSetCreate`). -/
structure ExerciseInSetCreate where
  exercise_template_id : Option Nat := none
  custom_name : Option String := none
  data : ExerciseData := {}
  order_index : Nat := 0
deriving DecidableEq, Repr

/-- Request body of the exercise-set creation endpoints (`ExerciseSetCreate`). -/
structure ExerciseSetCreate where
  name : String
  series : Nat
  exercises : List ExerciseInSetCreate := []
deriving DecidableEq, Repr

/-- The child-exercise creation loop of the two exercise-set creation
endpoints: every child inherits the parent linkage (`sid`, `gid`) the
endpoint hardcodes, plus the set id. -/
def mkSetExercises (sid gid : Option Nat) (setId : Nat) :
    Nat → List ExerciseInSetCreate → List SessionExercise
  | _, [] => []
  | nid, xc :: rest =>
    { id := nid
      session_id := sid
      session_group_id := gid
      exercise_template_id := xc.exercise_template_id
      exercise_set_id := some setId
      custom_name := xc.custom_name
      data := xc.data
      order_index := xc.order_index } :: mkSetExercises sid gid setId (nid + 1) rest

/-- `create_exercise_set_for_session`
(`POST /exercise-sets/sessions/{session_id}`): `session_id` from the
path, `session_group_id = NULL`, on the set and every child exercise. -/
def createExerciseSetForSession (store : Store) (sid : Nat) (sd : ExerciseSetCreate) :
    Except ApiError Store :=
  match findSession store sid with
  | none => .error .notFound
  | some _ =>
    let maxOrder := ((store.exerciseSets.filter (fun es => es.session_id == some sid)).map
      (fun es => es.order_index)).max?
    let nextOrder := match maxOrder with
      | some v => v + 1
      | none => 0
    let newSet : ExerciseSet :=
      { id := store.nextSetId
        session_id := some sid
        session_group_id := none
        name := sd.name
        series := sd.series
        order_index := nextOrder }
    .ok { store with
          exerciseSets := store.exerciseSets ++ [newSet]
          exercises := store.exercises ++
            mkSetExercises (some sid) none newSet.id store.nextExerciseId sd.exercises
          nextSetId := store.nextSetId + 1
          nextExerciseId := store.nextExerciseId + sd.exercises.length }

/-- `create_exercise_set_for_group`
(`POST /exercise-sets/session-groups/{group_id}`): `session_group_id`
from the path, `session_id = NULL`, on the set and every child. -/
def createExerciseSetForGroup (store : Store) (gid : Nat) (sd : ExerciseSetCreate) :
    Except ApiError Store :=
  match store.groups.find? (fun g => g.id == gid) with
  | none => .error .notFound
  | some _ =>
    let maxOrder := ((store.exerciseSets.filter (fun es => es.session_group_id == some gid)).map
      (fun es => es.order_index)).max?
    let nextOrder := match maxOrder with
      | some v => v + 1
      | none => 0
    let newSet : ExerciseSet :=
      { id := store.nextSetId
        session_id := none
        session_group_id := some gid
        name := sd.name
        series := sd.series
        order_index := nextOrder }
    .ok { store with
          exerciseSets := store.exerciseSets ++ [newSet]
          exercises := store.exercises ++
            mkSetExercises none (some gid) newSet.id store.nextExerciseId sd.exercises
          nextSetId := store.nextSetId + 1
          nextExerciseId := store.nextExerciseId + sd.exercises.length }

/-- One item of `ExerciseSetUpdateExercises` (`ExerciseInSetUpdate`):
with an `id` of an existing exercise of the set it is an update,
otherwise a creation. -/
structure ExerciseInSetUpdate where
  id : Option Nat := none
  exercise_template_id : Option Nat := none
  custom_name : Option String := none
  data : Option ExerciseData := none
  order_index : Option Nat := none
deriving DecidableEq, Repr

/-- The `setattr` loop of `update_exercise_set_exercises`: apply the
provided (non-`None`) payload fields; parent links are untouched. -/
def applyExerciseInSetUpdate (ex : SessionExercise) (it : ExerciseInSetUpdate) :
    SessionExercise :=
  { ex with
    exercise_template_id := match it.exercise_template_id with
      | some v => some v
      | none => ex.exercise_template_id
    custom_name := match it.custom_name with
      | some n => some n
      | none => ex.custom_name
    data := it.data.getD ex.data
    order_index := it.order_index.getD ex.order_index }

/-- The creation branch of `update_exercise_set_exercises`: the new
exercise inherits `session_id` / `session_group_id` from the set. -/
def createExerciseInSet (st : Store) (es : ExerciseSet) (setId : Nat)
    (it : ExerciseInSetUpdate) : Store :=
  { st with
    exercises := st.exercises ++
      [{ id := st.nextExerciseId
         session_id := es.session_id
         session_group_id := es.session_group_id
         exercise_template_id := it.exercise_template_id
         exercise_set_id := some setId
         custom_name := it.custom_name
         data := (it.data).getD {}
         order_index := (it.order_index).getD 0 }]
    nextExerciseId := st.nextExerciseId + 1 }

/-- One iteration of the `update_exercise_set_exercises` loop: an item
with the id of an existing exercise of the set updates it in place; any
other item creates a new exercise inheriting the set's parent links. -/
def updateSetStep (es : ExerciseSet) (setId : Nat) (existingIds : List Nat)
    (st : Store) (it : ExerciseInSetUpdate) : Store :=
  match it.id with
  | some i =>
    if existingIds.contains i then
      { st with
        exercises := st.exercises.map (fun ex =>
          if ex.id == i then applyExerciseInSetUpdate ex it else ex) }
    else createExerciseInSet st es setId it
  | none => createExerciseInSet st es setId it

/-- `update_exercise_set_exercises` (`PUT /exercise-sets/{set_id}/exercises`):
update the listed existing exercises, create the rest, then delete the
set's exercises absent from the request. -/
def updateExerciseSetExercises (store : Store) (setId : Nat)
    (items : List ExerciseInSetUpdate) : Except ApiError Store :=
  match store.exerciseSets.find? (fun es => es.id == setId) with
  | none => .error .notFound
  | some es =>
    let existingIds := (store.exercises.filter
      (fun e => e.exercise_set_id == some setId)).map (fun e => e.id)
    let updatedIds := items.filterMap (fun it =>
      it.id.bind (fun i => if existingIds.contains i then some i else none))
    let idsToDelete := existingIds.filter (fun i => !updatedIds.contains i)
    let store1 := items.foldl (updateSetStep es setId existingIds) store
    .ok { store1 with
          exercises := store1.exercises.filter (fun ex => !idsToDelete.contains ex.id) }

/-- `delete_exercise_set` (`DELETE /exercise-sets/{set_id}`): a true row
deletion, cascading to the set's exercises (`delete-orphan`). -/
def deleteExerciseSet (store : Store) (setId : Nat) : Except ApiError Store :=
  match store.exerciseSets.find? (fun es => es.id == setId) with
  | none => .error .notFound
  | some _ =>
    .ok { store with
          exerciseSets := store.exerciseSets.filter (fun es => !(es.id == setId))
          exercises := store.exercises.filter (fun e => !(e.exercise_set_id == some setId)) }

/-- Request body of `POST /sessions/{id}/lap-times` (`LapTimesRequest`). -/
structure LapTimesRequest where
  client_id : Nat
  lap_times_ms : List Nat
  total_duration_ms : Nat
deriving DecidableEq, Repr

/-- `save_lap_times` (`POST /sessions/{id}/lap-times`): append a
`SessionExercise` carrying the lap times under the sentinel name,
linked to the session only.  The next `order_index` mirrors the code's
`result.scalar() or -1`, whose Python `or` also maps a maximum of `0`
to `-1`. -/
def saveLapTimes (store : Store) (sid : Nat) (req : LapTimesRequest) :
    Except ApiError Store :=
  match findSession store sid with
  | none => .error .notFound
  | some _ =>
    let maxOrder : Int :=
      match ((store.exercises.filter (fun e => e.session_id == some sid)).map
        (fun e => e.order_index)).max? with
      | none => -1
      | some v => if v = 0 then -1 else (v : Int)
    .ok { store with
          exercises := store.exercises ++
            [{ id := store.nextExerciseId
               session_id := some sid
               session_group_id := none
               exercise_template_id := none
               exercise_set_id := none
               custom_name := some "Toma de Tiempo BMX"
               data :=
                 { lap_times_ms := some req.lap_times_ms
                   total_duration_ms := some req.total_duration_ms
                   lap_count := some req.lap_times_ms.length
                   client_id := some req.client_id }
               order_index := (maxOrder + 1).toNat }]
          nextExerciseId := store.nextExerciseId + 1 }

/-! ## Aggregation engine (`app/routers/clients.py`) -/

/-- One row of the lap-time query: session-exercise `data` joined to
the session and (outer-joined) location of the client. -/
structure LapRow where
  location_id : Option Nat
  location_name : Option String
  laps : List Nat
  session_id : Nat
  scheduled_at : Nat
deriving DecidableEq, Repr

/-- The outer join `Location.id == TrainingSession.location_id`
projected to `Location.name`. -/
def lookupLocationName (store : Store) (lid : Option Nat) : Option String :=
  lid.bind (fun l => (store.locations.find? (fun L => L.id == l)).map (fun L => L.name))

/-- `ORDER BY TrainingSession.scheduled_at DESC` on lap rows. -/
def byRowScheduledDesc (a b : LapRow) : Prop :=
  b.scheduled_at ≤ a.scheduled_at

instance : DecidableRel byRowScheduledDesc := fun _ _ => Nat.decLe _ _

/-- The rows of the lap-time query before ordering: `SessionExercise`
joined to the client's `TrainingSession` on
`SessionExercise.session_id == TrainingSession.id`, filtered to the
sentinel `custom_name`; `lap_times_ms` read with default `[]`
(`row.data.get("lap_times_ms", [])`). -/
def lapRowsUnsorted (store : Store) (cid : Nat) : List LapRow :=
  store.exercises.flatMap (fun ex =>
    if ex.custom_name == some "Toma de Tiempo BMX" then
      (store.sessions.filter (fun s =>
        ex.session_id == some s.id && s.client_id == cid)).map (fun s =>
          { location_id := s.location_id
            location_name := lookupLocationName store s.location_id
            laps := ex.data.lap_times_ms.getD []
            session_id := s.id
            scheduled_at := s.scheduled_at })
    else [])

/-- The lap-time query rows, ordered by `scheduled_at` descending. -/
def lapRows (store : Store) (cid : Nat) : List LapRow :=
  (lapRowsUnsorted store cid).insertionSort byRowScheduledDesc

/-- The per-session bucket of the aggregation
(`location_map[...]["sessions"][session_id]`). -/
structure SessAcc where
  session_id : Nat
  recorded_at : Nat
  lap_times_ms : List Nat
deriving DecidableEq, Repr

/-- The per-location bucket of the aggregation (`location_map[...]`);
insertion-ordered association lists model the Python dicts. -/
structure LocAcc where
  location_id : Option Nat
  location_name : String
  sessions : List SessAcc
  all_times : List Nat
deriving DecidableEq, Repr

/-- Insert one row into the per-session buckets of a location: extend
the existing bucket of that `session_id`, or append a fresh one. -/
def addRowSessions (sid rec : Nat) (laps : List Nat) : List SessAcc → List SessAcc
  | [] => [{ session_id := sid, recorded_at := rec, lap_times_ms := laps }]
  | b :: bs =>
    if b.session_id == sid then
      { b with lap_times_ms := b.lap_times_ms ++ laps } :: bs
    else b :: addRowSessions sid rec laps bs

/-- Insert one row into the location buckets: extend the existing
bucket of that `location_id` (appending the row's laps to `all_times`),
or append a fresh bucket named after this first row. -/
def addRow (acc : List LocAcc) (row : LapRow) : List LocAcc :=
  match acc with
  | [] =>
    [{ location_id := row.location_id
       location_name := row.location_name.getD "Sin ubicación"
       sessions := [{ session_id := row.session_id
                      recorded_at := row.scheduled_at
                      lap_times_ms := row.laps }]
       all_times := row.laps }]
  | L :: Ls =>
    if L.location_id == row.location_id then
      { L with
        sessions := addRowSessions row.session_id row.scheduled_at row.laps L.sessions
        all_times := L.all_times ++ row.laps } :: Ls
    else L :: addRow Ls row

/-- The grouping loop of `get_client_lap_times_by_location`. -/
def buildLocMap (rows : List LapRow) : List LocAcc :=
  rows.foldl addRow []

/-- Per-session lap statistics (`SessionLapTimes` response schema). -/
structure SessionLapTimes where
  session_id : Nat
  recorded_at : Nat
  lap_times_ms : List Nat
  total_laps : Nat
  best_time_ms : Nat
  average_time_ms : Nat
deriving DecidableEq, Repr

/-- Per-location lap statistics (`LocationLapTimes` response schema). -/
structure LocationLapTimes where
  location_id : Option Nat
  location_name : String
  total_laps : Nat
  best_time_ms : Nat
  average_time_ms : Nat
  sessions : List SessionLapTimes
deriving DecidableEq, Repr

/-- `sessions.sort(key=recorded_at, reverse=True)`. -/
def bySessStatsDesc (a b : SessionLapTimes) : Prop :=
  b.recorded_at ≤ a.recorded_at

instance : DecidableRel bySessStatsDesc := fun _ _ => Nat.decLe _ _

/-- The per-session statistics of one nonempty session bucket:
`len`, `min`, integer-truncated mean. -/
def mkSessionLapTimes (b : SessAcc) : SessionLapTimes :=
  { session_id := b.session_id
    recorded_at := b.recorded_at
    lap_times_ms := b.lap_times_ms
    total_laps := b.lap_times_ms.length
    best_time_ms := b.lap_times_ms.min?.getD 0
    average_time_ms := b.lap_times_ms.sum / b.lap_times_ms.length }

/-- `get_client_lap_times_by_location`
(`GET /clients/{id}/lap-times-by-location`): group the sentinel
exercises by the session's location, flatten, and report `len` / `min`
/ truncated mean per location and per session; a location whose
flattened list is empty is omitted (`if not all_times: continue`), and
session buckets with empty lists are skipped (`if session_times:`). -/
def getClientLapTimesByLocation (store : Store) (cid : Nat) : List LocationLapTimes :=
  (buildLocMap (lapRows store cid)).filterMap (fun L =>
    if L.all_times.isEmpty then none
    else some
      { location_id := L.location_id
        location_name := L.location_name
        total_laps := L.all_times.length
        best_time_ms := L.all_times.min?.getD 0
        average_time_ms := L.all_times.sum / L.all_times.length
        sessions := ((L.sessions.filter (fun b => !b.lap_times_ms.isEmpty)).map
          mkSessionLapTimes).insertionSort bySessStatsDesc })

/-- One entry of the exercise-history response (`ExerciseHistoryEntry`). -/
structure ExerciseHistoryEntry where
  session_id : Nat
  date : Nat
  exercise_name : String
  data : ExerciseData
deriving DecidableEq, Repr

/-- Response of `GET /clients/{id}/exercise-history`
(`ExerciseHistoryResponse`). -/
structure ExerciseHistoryResponse where
  exercises : List String
  history : List ExerciseHistoryEntry
deriving DecidableEq, Repr

/-- `ORDER BY TrainingSession.scheduled_at DESC` on joined
exercise/session pairs. -/
def byPairScheduledDesc (a b : SessionExercise × TrainingSession) : Prop :=
  b.2.scheduled_at ≤ a.2.scheduled_at

instance : DecidableRel byPairScheduledDesc := fun _ _ => Nat.decLe _ _

/-- `a ≤ b` on strings, as used by Python's `sorted`. -/
def stringAsc (a b : String) : Prop := a ≤ b

instance : DecidableRel stringAsc := fun a b =>
  inferInstanceAs (Decidable (a ≤ b))

/-- The join of the exercise-history query: `SessionExercise` paired
with the client's `TrainingSession` on
`TrainingSession.id == SessionExercise.session_id`. -/
def historyRowsBase (store : Store) (cid : Nat) :
    List (SessionExercise × TrainingSession) :=
  store.exercises.flatMap (fun ex =>
    (store.sessions.filter (fun s =>
      ex.session_id == some s.id && s.client_id == cid)).map (fun s => (ex, s)))

/-- The joined rows with a non-null `custom_name` that is not the BMX
sentinel. -/
def historyFiltered (store : Store) (cid : Nat) :
    List (SessionExercise × TrainingSession) :=
  (historyRowsBase store cid).filter (fun r =>
    r.1.custom_name.isSome && !(r.1.custom_name == some "Toma de Tiempo BMX"))

/-- The rows of the exercise-history query, optionally restricted to
one exact name (Python's `if exercise_name:` skips the filter for
`None` and for the empty string), ordered by session date descending. -/
def historyRows (store : Store) (cid : Nat) (filterName : Option String) :
    List (SessionExercise × TrainingSession) :=
  (if (filterName.getD "").isEmpty then historyFiltered store cid
   else (historyFiltered store cid).filter
     (fun r => r.1.custom_name == some (filterName.getD ""))).insertionSort
    byPairScheduledDesc

/-- `get_client_exercise_history` (`GET /clients/{id}/exercise-history`):
the full row list plus the distinct exercise names encountered, sorted
alphabetically (`sorted(list(exercises_set))`). -/
def getClientExerciseHistory (store : Store) (cid : Nat) (filterName : Option String) :
    ExerciseHistoryResponse :=
  let rows := historyRows store cid filterName
  { exercises := ((rows.map (fun r => r.1.custom_name.getD "")).dedup).insertionSort stringAsc
    history := rows.map (fun r =>
      { session_id := r.2.id
        date := r.2.scheduled_at
        exercise_name := r.1.custom_name.getD ""
        data := r.1.data }) }

/-! ## Reachable store states -/

/-- The stores reachable from the empty database through the modelled
API operations (every path that creates or edits rows).  Because the
session- and group-creating endpoints all fail on the missing
`trainer_id` request field, the relation additionally admits arbitrary
`TrainingSession` and `SessionGroup` rows written outside the API —
`scripts/seed_data.py` inserts such rows directly through the ORM — so
that stores containing sessions and groups stay covered; these two
tables carry no exclusive-or links, so this only enlarges the set of
stores the invariant is proved over. -/
inductive Reachable : Store → Prop where
  | init : Reachable {}
  | insertSession (st : Store) (s : TrainingSession) :
      Reachable st → Reachable { st with sessions := st.sessions ++ [s] }
  | insertGroup (st : Store) (g : SessionGroup) :
      Reachable st → Reachable { st with groups := st.groups ++ [g] }
  | createSession (st : Store) (sc : SessionCreate) (st' : Store) (s : TrainingSession) :
      Reachable st → createSession st sc = .ok (st', s) → Reachable st'
  | createSessionGroup (st : Store) (gd : SessionGroupCreate) (st' : Store)
      (g : SessionGroup) :
      Reachable st → createSessionGroup st gd = .ok (st', g) → Reachable st'
  | startActiveSession (st : Store) (data : StartActiveSessionRequest) (now : Nat)
      (st' : Store) (r : ActiveSessionResult) :
      Reachable st → startActiveSession st data now = .ok (st', r) → Reachable st'
  | updateSession (st : Store) (sid : Nat) (upd : SessionUpdate) (st' : Store) :
      Reachable st → updateSession st sid upd = .ok st' → Reachable st'
  | deleteSession (st : Store) (sid : Nat) (st' : Store) :
      Reachable st → deleteSession st sid = .ok st' → Reachable st'
  | toggleSessionPayment (st : Store) (sid now : Nat) (st' : Store) :
      Reachable st → toggleSessionPayment st sid now = .ok st' → Reachable st'
  | registerClientPayment (st : Store) (cid tid : Nat) (pd : PaymentCreate) (now : Nat) :
      Reachable st → Reachable (registerClientPayment st cid tid pd now)
  | createSessionExercise (st : Store) (sid : Nat) (xc : SessionExerciseCreate) (st' : Store) :
      Reachable st → createSessionExercise st sid xc = .ok st' → Reachable st'
  | createSessionGroupExercise (st : Store) (gid : Nat) (xc : SessionExerciseCreate)
      (st' : Store) :
      Reachable st → createSessionGroupExercise st gid xc = .ok st' → Reachable st'
  | updateSessionExercise (st : Store) (exid : Nat) (upd : SessionExerciseUpdate) (st' : Store) :
      Reachable st → updateSessionExercise st exid upd = .ok st' → Reachable st'
  | deleteSessionExercise (st : Store) (exid : Nat) (st' : Store) :
      Reachable st → deleteSessionExercise st exid = .ok st' → Reachable st'
  | createExerciseSetForSession (st : Store) (sid : Nat) (sd : ExerciseSetCreate) (st' : Store) :
      Reachable st → createExerciseSetForSession st sid sd = .ok st' → Reachable st'
  | createExerciseSetForGroup (st : Store) (gid : Nat) (sd : ExerciseSetCreate) (st' : Store) :
      Reachable st → createExerciseSetForGroup st gid sd = .ok st' → Reachable st'
  | updateExerciseSetExercises (st : Store) (setId : Nat) (items : List ExerciseInSetUpdate)
      (st' : Store) :
      Reachable st → updateExerciseSetExercises st setId items = .ok st' → Reachable st'
  | deleteExerciseSet (st : Store) (setId : Nat) (st' : Store) :
      Reachable st → deleteExerciseSet st setId = .ok st' → Reachable st'
  | saveLapTimes (st : Store) (sid : Nat) (req : LapTimesRequest) (st' : Store) :
      Reachable st → saveLapTimes st sid req = .ok st' → Reachable st'

/-- The exclusive-or invariant on one row's two parent links: exactly
one of the two is non-null. -/
def xorLink (a b : Option Nat) : Prop :=
  (a.isSome ∧ b = none) ∨ (a = none ∧ b.isSome)

instance (a b : Option Nat) : Decidable (xorLink a b) := by
  unfold xorLink; infer_instance

/-- The store-wide exclusive-or invariant: every session exercise and
every exercise set links to exactly one of
{`session_id`, `session_group_id`}. -/
def StoreXorInvariant (store : Store) : Prop :=
  (∀ ex ∈ store.exercises, xorLink ex.session_id ex.session_group_id) ∧
  (∀ es ∈ store.exerciseSets, xorLink es.session_id es.session_group_id)

/-! ## Order-relation instances used by the sort lemmas -/

instance : IsTotal TrainingSession byStartedDesc :=
  ⟨fun a b => by
    unfold byStartedDesc optNatLe
    rcases b.started_at with _ | x <;> rcases a.started_at with _ | y <;> simp
    exact Nat.le_total x y⟩

instance : IsTrans TrainingSession byStartedDesc :=
  ⟨fun a b c hab hbc => by
    unfold byStartedDesc at *
    revert hab hbc
    unfold optNatLe
    rcases c.started_at with _ | x <;> rcases b.started_at with _ | y <;>
      rcases a.started_at with _ | z <;> simp <;> omega⟩

instance : IsTotal SessionGroup byGroupScheduledDesc :=
  ⟨fun a b => Nat.le_total b.scheduled_at a.scheduled_at⟩

instance : IsTrans SessionGroup byGroupScheduledDesc :=
  ⟨fun _ _ _ hab hbc => Nat.le_trans hbc hab⟩

instance : IsTotal LapRow byRowScheduledDesc :=
  ⟨fun a b => Nat.le_total b.scheduled_at a.scheduled_at⟩

instance : IsTrans LapRow byRowScheduledDesc :=
  ⟨fun _ _ _ hab hbc => Nat.le_trans hbc hab⟩

instance : IsTotal SessionLapTimes bySessStatsDesc :=
  ⟨fun a b => Nat.le_total b.recorded_at a.recorded_at⟩

instance : IsTrans SessionLapTimes bySessStatsDesc :=
  ⟨fun _ _ _ hab hbc => Nat.le_trans hbc hab⟩

instance : IsTotal (SessionExercise × TrainingSession) byPairScheduledDesc :=
  ⟨fun a b => Nat.le_total b.2.scheduled_at a.2.scheduled_at⟩

instance : IsTrans (SessionExercise × TrainingSession) byPairScheduledDesc :=
  ⟨fun _ _ _ hab hbc => Nat.le_trans hbc hab⟩

instance : IsTotal String stringAsc :=
  ⟨fun a b => le_total a b⟩

instance : IsTrans String stringAsc :=
  ⟨fun _ _ _ hab hbc => le_trans hab hbc⟩

/-! ## Concrete stores for witnesses and counterexamples -/

/-- An older standalone `in_progress` session (started at 100). -/
def cex2_standalone : TrainingSession :=
  { id := 1, trainer_id := 1, client_id := 1, scheduled_at := 100,
    started_at := some 100, status := .in_progress }

/-- A newer session group (scheduled at 200). -/
def cex2_group : SessionGroup :=
  { id := 5, trainer_id := 1, scheduled_at := 200 }

/-- The newer group's `in_progress` child session (started at 200). -/
def cex2_child : TrainingSession :=
  { id := 2, trainer_id := 1, client_id := 2, session_group_id := some 5,
    scheduled_at := 200, started_at := some 200, status := .in_progress }

/-- Counterexample store for the resolver-priority claim: trainer 1 has
the older standalone session and the newer group both in progress. -/
def cex2_store : Store :=
  { sessions := [cex2_standalone, cex2_child]
    groups := [cex2_group]
    nextSessionId := 3
    nextGroupId := 6 }

/-- Witness store for soft-delete idempotence: one scheduled session. -/
def cw9_store : Store :=
  { sessions :=
      [{ id := 1, trainer_id := 1, client_id := 4, scheduled_at := 40, status := .scheduled },
       { id := 2, trainer_id := 1, client_id := 4, scheduled_at := 50, status := .completed }]
    nextSessionId := 3 }

/-- `cw9_store` after cancelling session 1. -/
def cw9_store1 : Store :=
  { sessions :=
      [{ id := 1, trainer_id := 1, client_id := 4, scheduled_at := 40, status := .cancelled },
       { id := 2, trainer_id := 1, client_id := 4, scheduled_at := 50, status := .completed }]
    nextSessionId := 3 }

/-- Witness store for the FIFO-allocation theorem: client 7 has three
unpaid billable sessions at distinct `scheduled_at` (30, 10, 20), one
unpaid cancelled session, and client 9 one unrelated session. -/
def cw1_store : Store :=
  { sessions :=
      [{ id := 1, trainer_id := 1, client_id := 7, scheduled_at := 30, status := .completed },
       { id := 2, trainer_id := 1, client_id := 7, scheduled_at := 10, status := .completed },
       { id := 3, trainer_id := 1, client_id := 7, scheduled_at := 20, status := .scheduled },
       { id := 4, trainer_id := 1, client_id := 7, scheduled_at := 5, status := .cancelled },
       { id := 5, trainer_id := 1, client_id := 9, scheduled_at := 1, status := .completed }]
    nextSessionId := 6 }

/-- Witness store for the cancelled-session exclusion theorem: client 7
has one completed paid session, one scheduled unpaid session and one
cancelled unpaid session, plus one payment. -/
def cw4_store : Store :=
  { sessions :=
      [{ id := 1, trainer_id := 1, client_id := 7, scheduled_at := 10, status := .completed,
         is_paid := true, paid_at := some 11 },
       { id := 2, trainer_id := 1, client_id := 7, scheduled_at := 20, status := .scheduled },
       { id := 3, trainer_id := 1, client_id := 7, scheduled_at := 30, status := .cancelled }]
    payments := [{ id := 1, client_id := 7, trainer_id := 1, sessions_paid := 1,
                   amount_cop := 50, payment_date := 11 }]
    nextSessionId := 4
    nextPaymentId := 2 }

/-- Counterexample store for the terminal-status claim: one session
already `completed`. -/
def cex5_store : Store :=
  { sessions :=
      [{ id := 1, trainer_id := 1, client_id := 1, scheduled_at := 10, status := .completed }]
    nextSessionId := 2 }

/-- The start request that restarts the completed session of
`cex5_store`. -/
def cex5_req : StartActiveSessionRequest :=
  { session_id := some 1, client_ids := [1] }

/-- The completed session of `cex5_store` after the active-session
start flow: back `in_progress`, `started_at = 50`. -/
def cex5_started : TrainingSession :=
  { id := 1, trainer_id := 1, client_id := 1, scheduled_at := 10,
    started_at := some 50, status := .in_progress }

/-- `cex5_store` after restarting its completed session. -/
def cex5_store' : Store :=
  { sessions := [cex5_started], nextSessionId := 2 }

/-- Failing input for the ad-hoc start flow: a valid start request with
no `session_id` and one client id. -/
def cw6_data1 : StartActiveSessionRequest :=
  { client_ids := [7] }

/-- The session row inserted outside the API for the reachability
witness (as `scripts/seed_data.py` does through the ORM). -/
def cw8_session : TrainingSession :=
  { id := 1, trainer_id := 1, client_id := 7, scheduled_at := 10 }

/-- The store reached by inserting `cw8_session` and then creating one
session exercise on it through `POST /session-exercises/sessions/1/exercises`. -/
def cw8_store : Store :=
  { sessions := [cw8_session]
    exercises := [{ id := 1, session_id := some 1, custom_name := some "Sentadilla" }]
    nextExerciseId := 2 }

/-- Witness store for the exercise-history theorem: client 3 has two
sessions with three named physio exercises and one BMX lap-time
sentinel exercise. -/
def cw10_store : Store :=
  { sessions :=
      [{ id := 1, trainer_id := 1, client_id := 3, scheduled_at := 50, status := .completed },
       { id := 2, trainer_id := 1, client_id := 3, scheduled_at := 60, status := .completed }]
    exercises :=
      [{ id := 1, session_id := some 1, custom_name := some "Squat" },
       { id := 2, session_id := some 2, custom_name := some "Bridge" },
       { id := 3, session_id := some 2, custom_name := some "Squat" },
       { id := 4, session_id := some 1, custom_name := some "Toma de Tiempo BMX",
         data := { lap_times_ms := some [100] } }]
    nextSessionId := 3
    nextExerciseId := 5 }

/-- Witness store for the lap-time aggregation: client 3 has two
sessions at location 11 ("Pista") with lap arrays
`[45000, 43000, 44000]` (session 1, scheduled 50) and
`[42000, 41000]` (session 2, scheduled 60). -/
def cw7_store : Store :=
  { sessions :=
      [{ id := 1, trainer_id := 1, client_id := 3, location_id := some 11,
         scheduled_at := 50, status := .completed },
       { id := 2, trainer_id := 1, client_id := 3, location_id := some 11,
         scheduled_at := 60, status := .completed }]
    locations := [{ id := 11, trainer_id := 1, name := "Pista" }]
    exercises :=
      [{ id := 1, session_id := some 1, custom_name := some "Toma de Tiempo BMX",
         data := { lap_times_ms := some [45000, 43000, 44000] } },
       { id := 2, session_id := some 2, custom_name := some "Toma de Tiempo BMX",
         data := { lap_times_ms := some [42000, 41000] } }]
    nextSessionId := 3
    nextExerciseId := 3 }

/-! ## General lemmas -/

/-- In a list whose elements have pairwise different keys, the key
determines the element. -/
theorem eq_of_key_eq_of_pairwise_ne {α κ : Type} (key : α → κ) :
    ∀ {l : List α}, l.Pairwise (fun a b => key a ≠ key b) →
      ∀ {a b : α}, a ∈ l → b ∈ l → key a = key b → a = b
  | [], _, _, _, ha, _, _ => absurd ha (List.not_mem_nil _)
  | c :: t, hp, a, b, ha, hb, hk => by
    have hh := (List.pairwise_cons.mp hp).1
    have ht := (List.pairwise_cons.mp hp).2
    rcases List.mem_cons.mp ha with rfl | ha' <;> rcases List.mem_cons.mp hb with rfl | hb'
    · rfl
    · exact absurd hk (hh b hb')
    · exact absurd hk.symm (hh a ha')
    · exact eq_of_key_eq_of_pairwise_ne key ht ha' hb' hk

/-- Membership in the `k`-prefix of a list sorted by a key with
pairwise-distinct key values: exactly the elements with fewer than `k`
strictly smaller keys in the list. -/
theorem mem_take_sorted_iff {α : Type} (key : α → Nat) :
    ∀ (m : List α) (k : Nat),
      m.Pairwise (fun a b => key a ≤ key b) →
      m.Pairwise (fun a b => key a ≠ key b) →
      ∀ s : α,
        (s ∈ m.take k ↔
          s ∈ m ∧ m.countP (fun t => decide (key t < key s)) < k)
  | [], k, _, _, s => by simp
  | h :: t, 0, _, _, s => by simp
  | h :: t, k + 1, hs, hd, s => by
    have hle : ∀ b ∈ t, key h ≤ key b := (List.pairwise_cons.mp hs).1
    have hne : ∀ b ∈ t, key h ≠ key b := (List.pairwise_cons.mp hd).1
    have hlt : ∀ b ∈ t, key h < key b := fun b hb =>
      Nat.lt_of_le_of_ne (hle b hb) (hne b hb)
    have ih := mem_take_sorted_iff key t k
      (List.pairwise_cons.mp hs).2 (List.pairwise_cons.mp hd).2 s
    have hcount : ∀ u : α,
        (h :: t).countP (fun v => decide (key v < key u)) =
          t.countP (fun v => decide (key v < key u)) +
            (if key h < key u then 1 else 0) := by
      intro u
      rw [List.countP_cons]
      by_cases hh : key h < key u <;> simp [hh]
    rw [List.take_succ_cons]
    constructor
    · intro hmem
      rcases List.mem_cons.mp hmem with rfl | hmem'
      · refine ⟨List.mem_cons_self _ _, ?_⟩
        have hz : t.countP (fun v => decide (key v < key s)) = 0 := by
          rw [List.countP_eq_zero]
          intro b hb
          simpa using Nat.not_lt.mpr (Nat.le_of_lt (hlt b hb))
        rw [hcount, hz]
        simp
      · obtain ⟨hst, hcnt⟩ := ih.mp hmem'
        refine ⟨List.mem_cons_of_mem _ hst, ?_⟩
        rw [hcount]
        have : key h < key s := hlt s hst
        simp only [this, if_pos]
        omega
    · rintro ⟨hmem, hcnt⟩
      rcases List.mem_cons.mp hmem with rfl | hmem'
      · exact List.mem_cons_self _ _
      · have hhs : key h < key s := hlt s hmem'
        rw [hcount, if_pos hhs] at hcnt
        exact List.mem_cons_of_mem _ (ih.mpr ⟨hmem', by omega⟩)

/-- The head of an insertion-sorted list is a member of the original
list related (by the sort order) to every member. -/
theorem head_insertionSort_max {α : Type} (r : α → α → Prop) [DecidableRel r]
    [IsTotal α r] [IsTrans α r] (l : List α) (s : α)
    (h : (l.insertionSort r).head? = some s) :
    s ∈ l ∧ ∀ t ∈ l, r s t := by
  have hperm := List.perm_insertionSort r l
  have hsorted := List.sorted_insertionSort r l
  cases hsort : l.insertionSort r with
  | nil => rw [hsort] at h; simp at h
  | cons a rest =>
    rw [hsort] at h hperm hsorted
    have ha : a = s := by simpa using h
    subst ha
    refine ⟨hperm.mem_iff.mp (List.mem_cons_self _ _), fun t ht => ?_⟩
    rcases List.mem_cons.mp (hperm.symm.mem_iff.mp ht) with rfl | ht'
    · rcases total_of r t t with h' | h' <;> exact h'
    · exact List.rel_of_sorted_cons hsorted t ht'

/-! ## C1 — FIFO payment allocation -/

/-- C1: for every client and every payment registration of `k`
sessions, the sessions marked paid are exactly the unpaid billable
sessions of the client with fewer than `k` strictly older eligible
sessions (the up-to-`k` oldest by `scheduled_at`); each of them gets
`is_paid = true` and `paid_at = now`, and every other session keeps its
row unchanged.  Hypotheses: primary keys are unique and the eligible
sessions have distinct `scheduled_at`. -/
theorem registerClientPayment_marks_oldest
    (store : Store) (cid tid : Nat) (pd : PaymentCreate) (now : Nat)
    (hids : store.sessions.Pairwise (fun a b => a.id ≠ b.id))
    (hdist : (clientUnpaidBillable store cid).Pairwise
      (fun a b => a.scheduled_at ≠ b.scheduled_at)) :
    (registerClientPayment store cid tid pd now).sessions =
      store.sessions.map (fun s =>
        if s.client_id = cid ∧ s.is_paid = false ∧ isBillableStatus s.status = true ∧
            (clientUnpaidBillable store cid).countP
              (fun t => decide (t.scheduled_at < s.scheduled_at)) < pd.sessions_paid
        then { s with is_paid := true, paid_at := some now }
        else s) := by
  have hperm := List.perm_insertionSort byScheduledAsc (clientUnpaidBillable store cid)
  have hsorted : ((clientUnpaidBillable store cid).insertionSort byScheduledAsc).Pairwise
      (fun a b => a.scheduled_at ≤ b.scheduled_at) :=
    List.sorted_insertionSort byScheduledAsc (clientUnpaidBillable store cid)
  have hdists : ((clientUnpaidBillable store cid).insertionSort byScheduledAsc).Pairwise
      (fun a b => a.scheduled_at ≠ b.scheduled_at) :=
    hdist.perm hperm.symm (fun h h' => h h'.symm)
  show store.sessions.map _ = _
  apply List.map_congr_left
  intro s hs
  have hmemiff : ∀ u : TrainingSession,
      u ∈ paymentCandidates store cid pd.sessions_paid ↔
        u ∈ clientUnpaidBillable store cid ∧
          (clientUnpaidBillable store cid).countP
            (fun t => decide (t.scheduled_at < u.scheduled_at)) < pd.sessions_paid := by
    intro u
    rw [paymentCandidates,
      mem_take_sorted_iff (fun x => x.scheduled_at) _ pd.sessions_paid hsorted hdists u,
      hperm.mem_iff, hperm.countP_eq]
  have helig : ∀ u : TrainingSession,
      u ∈ clientUnpaidBillable store cid ↔
        u ∈ store.sessions ∧ u.client_id = cid ∧ u.is_paid = false ∧
          isBillableStatus u.status = true := by
    intro u
    simp [clientUnpaidBillable, List.mem_filter, Bool.and_eq_true, beq_iff_eq,
      Bool.not_eq_true', and_assoc]
  have hcontains :
      ((paymentCandidates store cid pd.sessions_paid).map (fun t => t.id)).contains s.id =
        true ↔
        (s.client_id = cid ∧ s.is_paid = false ∧ isBillableStatus s.status = true ∧
          (clientUnpaidBillable store cid).countP
            (fun t => decide (t.scheduled_at < s.scheduled_at)) < pd.sessions_paid) := by
    constructor
    · intro hc
      have : s.id ∈ (paymentCandidates store cid pd.sessions_paid).map (fun t => t.id) := by
        simpa using hc
      obtain ⟨u, hu, huid⟩ := List.mem_map.mp this
      obtain ⟨huel, hucnt⟩ := (hmemiff u).mp hu
      have humem : u ∈ store.sessions := ((helig u).mp huel).1
      have : u = s := eq_of_key_eq_of_pairwise_ne (fun x => x.id) hids humem hs huid
      subst this
      obtain ⟨_, h1, h2, h3⟩ := (helig u).mp huel
      exact ⟨h1, h2, h3, hucnt⟩
    · rintro ⟨h1, h2, h3, h4⟩
      have hsel : s ∈ paymentCandidates store cid pd.sessions_paid :=
        (hmemiff s).mpr ⟨(helig s).mpr ⟨hs, h1, h2, h3⟩, h4⟩
      simpa using List.mem_map_of_mem (fun t => t.id) hsel
  by_cases hcond : s.client_id = cid ∧ s.is_paid = false ∧ isBillableStatus s.status = true ∧
      (clientUnpaidBillable store cid).countP
        (fun t => decide (t.scheduled_at < s.scheduled_at)) < pd.sessions_paid
  · rw [if_pos (hcontains.mpr hcond), if_pos hcond]
  · rw [if_neg ?_, if_neg hcond]
    intro hc
    exact hcond (hcontains.mp (by simpa using hc))

/-- Witness for C1: the concrete store `cw1_store`, a payment of 2
sessions for client 7 — the two oldest unpaid billable sessions
(`scheduled_at` 10 and 20) become paid and every other row is
unchanged. -/
theorem registerClientPayment_marks_oldest_witness :
    (registerClientPayment cw1_store 7 1
        { sessions_paid := 2, amount_cop := 100 } 99).sessions =
      cw1_store.sessions.map (fun s =>
        if s.client_id = 7 ∧ s.is_paid = false ∧ isBillableStatus s.status = true ∧
            (clientUnpaidBillable cw1_store 7).countP
              (fun t => decide (t.scheduled_at < s.scheduled_at)) < 2
        then { s with is_paid := true, paid_at := some 99 }
        else s) :=
  registerClientPayment_marks_oldest cw1_store 7 1
    { sessions_paid := 2, amount_cop := 100 } 99 (by decide) (by decide)

/-! ## C3 — prepaid balance derived from the payment ledger -/

/-- C3: for every client state, the balance reports
`prepaid_sessions = max 0 (Σ Payment.sessions_paid − billable-session
count)` recomputed from the payment ledger, and
`has_positive_balance = (prepaid_sessions > 0)`; in particular,
registering a payment of `k ≥ 1` sessions for a client with no billable
sessions and no prior payments yields `prepaid_sessions = k`,
`has_positive_balance = true` and `paid_sessions = 0`. -/
theorem paymentBalance_derived_from_ledger
    (store : Store) (cid tid : Nat) (pd : PaymentCreate) (now : Nat)
    (hk : 1 ≤ pd.sessions_paid) :
    ((getClientPaymentBalance store cid).prepaid_sessions =
        max 0 ((((clientPayments store cid).map (fun p => p.sessions_paid)).sum : Int) -
          (clientBillableSessions store cid).length) ∧
      (getClientPaymentBalance store cid).has_positive_balance =
        decide ((getClientPaymentBalance store cid).prepaid_sessions > 0)) ∧
    (clientBillableSessions store cid = [] →
      clientPayments store cid = [] →
      getClientPaymentBalance (registerClientPayment store cid tid pd now) cid =
        { total_sessions := 0
          paid_sessions := 0
          unpaid_sessions := 0
          prepaid_sessions := (pd.sessions_paid : Int)
          has_positive_balance := true
          total_amount_paid_cop := pd.amount_cop }) := by
  refine ⟨⟨rfl, rfl⟩, fun hs hp => ?_⟩
  have helig : clientUnpaidBillable store cid = [] := by
    rw [clientUnpaidBillable, List.filter_eq_nil_iff]
    rw [clientBillableSessions, List.filter_eq_nil_iff] at hs
    intro a ha hpa
    apply hs a ha
    simp only [Bool.and_eq_true] at hpa ⊢
    exact ⟨hpa.1.1, hpa.2⟩
  have hcand : paymentCandidates store cid pd.sessions_paid = [] := by
    rw [paymentCandidates, helig]
    simp
  have hsess : (registerClientPayment store cid tid pd now).sessions =
      store.sessions.map (fun s =>
        if ((paymentCandidates store cid pd.sessions_paid).map (fun t => t.id)).contains s.id
        then { s with is_paid := true, paid_at := some now } else s) := rfl
  rw [hcand] at hsess
  simp at hsess
  have hpay : (registerClientPayment store cid tid pd now).payments =
      store.payments ++
        [{ id := store.nextPaymentId
           client_id := cid
           trainer_id := tid
           sessions_paid := pd.sessions_paid
           amount_cop := pd.amount_cop
           payment_date := pd.payment_date.getD now
           notes := pd.notes }] := rfl
  have hb1 : clientBillableSessions (registerClientPayment store cid tid pd now) cid = [] := by
    unfold clientBillableSessions at hs ⊢
    rw [hsess]
    exact hs
  have hp2 : clientPayments (registerClientPayment store cid tid pd now) cid =
      [{ id := store.nextPaymentId
         client_id := cid
         trainer_id := tid
         sessions_paid := pd.sessions_paid
         amount_cop := pd.amount_cop
         payment_date := pd.payment_date.getD now
         notes := pd.notes }] := by
    unfold clientPayments at hp ⊢
    rw [hpay, List.filter_append, hp]
    simp
  unfold getClientPaymentBalance
  rw [hb1, hp2]
  have h0 : (0 : Int) < pd.sessions_paid := by exact_mod_cast hk
  have hmax : max (0 : Int) (pd.sessions_paid : Int) = (pd.sessions_paid : Int) := by omega
  simp [hmax, h0]

/-- Witness for C3: paying for 10 sessions on the empty store (client 7
has zero sessions and zero payments) yields `prepaid_sessions = 10`,
`has_positive_balance = true`, `paid_sessions = 0`. -/
theorem paymentBalance_derived_from_ledger_witness :
    getClientPaymentBalance
        (registerClientPayment {} 7 1 { sessions_paid := 10, amount_cop := 500 } 99) 7 =
      { total_sessions := 0
        paid_sessions := 0
        unpaid_sessions := 0
        prepaid_sessions := 10
        has_positive_balance := true
        total_amount_paid_cop := 500 } :=
  (paymentBalance_derived_from_ledger {} 7 1 { sessions_paid := 10, amount_cop := 500 } 99
    (by decide)).2 rfl rfl

/-! ## C4 — cancelled sessions count nowhere -/

/-- C4: cancelled sessions are invisible to the payment engine: the
payment-candidate selection never contains a cancelled session (even an
unpaid one), and the balance is unchanged when every cancelled session
is dropped from the store — so cancelled sessions contribute to none of
`total_sessions`, `paid_sessions`, `unpaid_sessions`. -/
theorem cancelledSessions_excluded (store : Store) (cid k : Nat) :
    (∀ s ∈ paymentCandidates store cid k, s.status ≠ SessionStatus.cancelled) ∧
    getClientPaymentBalance
        { store with sessions :=
            store.sessions.filter (fun s => !(s.status == SessionStatus.cancelled)) } cid =
      getClientPaymentBalance store cid := by
  constructor
  · intro s hs
    have hs1 : s ∈ (clientUnpaidBillable store cid).insertionSort byScheduledAsc :=
      List.take_subset _ _ hs
    have hs2 : s ∈ clientUnpaidBillable store cid :=
      (List.perm_insertionSort byScheduledAsc _).mem_iff.mp hs1
    have hpred := (List.mem_filter.mp hs2).2
    simp only [Bool.and_eq_true] at hpred
    intro hcanc
    have hb := hpred.2
    rw [hcanc] at hb
    simp [isBillableStatus] at hb
  · have hsessions : clientBillableSessions
        { store with sessions :=
            store.sessions.filter (fun s => !(s.status == SessionStatus.cancelled)) } cid =
        clientBillableSessions store cid := by
      unfold clientBillableSessions
      dsimp only
      rw [List.filter_filter]
      apply List.filter_congr
      intro a _
      cases ha : a.status <;> simp [isBillableStatus, ha]
    unfold getClientPaymentBalance
    rw [hsessions]
    rfl

/-- Witness for C4 at `cw4_store` (which contains an unpaid cancelled
session): dropping cancelled sessions leaves the balance unchanged. -/
theorem cancelledSessions_excluded_witness :
    getClientPaymentBalance
        { cw4_store with sessions :=
            cw4_store.sessions.filter (fun s => !(s.status == SessionStatus.cancelled)) } 7 =
      getClientPaymentBalance cw4_store 7 :=
  (cancelledSessions_excluded cw4_store 7 3).2

/-! ## C2 — active-session resolver priority -/

/-- C2 counterexample: in `cex2_store`, trainer 1 has a standalone
`in_progress` session started at 100 and a group scheduled at 200 with
an `in_progress` child started at 200 — yet `get_active_session`
returns the older standalone session, not the newer group.  The
resolver is existence-first, refuting the claimed recency priority. -/
theorem getActiveSession_recency_counterexample :
    cex2_standalone.status = SessionStatus.in_progress ∧
    cex2_standalone.session_group_id = none ∧
    cex2_standalone.started_at = some 100 ∧
    cex2_group ∈ cex2_store.groups ∧
    cex2_group.scheduled_at = 200 ∧
    cex2_child.session_group_id = some cex2_group.id ∧
    cex2_child.status = SessionStatus.in_progress ∧
    cex2_child.started_at = some 200 ∧
    getActiveSession cex2_store 1 = some (.single cex2_standalone) := by
  decide

/-- C2 as amended: the resolver is existence-first, not recency-first.
Whenever the trainer has any standalone `in_progress` session with no
group, `get_active_session` returns a standalone session from that set
— never the group — even if a group session was started more recently;
the group branch is consulted only when no standalone session is in
progress. -/
theorem getActiveSession_standalone_priority
    (store : Store) (tid : Nat)
    (h : standaloneInProgress store tid ≠ []) :
    ∃ s, getActiveSession store tid = some (.single s) ∧
      s ∈ standaloneInProgress store tid := by
  cases hh : ((standaloneInProgress store tid).insertionSort byStartedDesc).head? with
  | none =>
    exfalso
    apply h
    have := List.head?_eq_none_iff.mp hh
    have hperm := List.perm_insertionSort byStartedDesc (standaloneInProgress store tid)
    rw [this] at hperm
    exact hperm.symm.eq_nil
  | some s =>
    obtain ⟨hmem, _⟩ :=
      head_insertionSort_max byStartedDesc (standaloneInProgress store tid) s hh
    refine ⟨s, ?_, hmem⟩
    unfold getActiveSession
    rw [hh]

/-- Witness for C2's amended theorem at the concrete store
`cex2_store`: the resolver yields a standalone session, not the newer
group. -/
theorem getActiveSession_standalone_priority_witness :
    ∃ s, getActiveSession cex2_store 1 = some (.single s) ∧
      s ∈ standaloneInProgress cex2_store 1 :=
  getActiveSession_standalone_priority cex2_store 1 (by decide)

/-! ## C5 — terminal statuses are not protected -/

/-- C5 counterexample: `cex5_store` holds a `completed` session;
starting it through `POST /sessions/active/start` succeeds and moves it
back to `in_progress` — refuting the claim that no API operation
changes the status of a completed or cancelled session. -/
theorem terminalStatus_counterexample :
    (findSession cex5_store 1).map (fun s => s.status) = some SessionStatus.completed ∧
    startActiveSession cex5_store cex5_req 50 = .ok (cex5_store', .single cex5_started) ∧
    cex5_started.status = SessionStatus.in_progress :=
  ⟨rfl, rfl, rfl⟩

/-- C5 as amended: the code does not protect terminal statuses.
Starting any existing session via the active-session flow
unconditionally sets it to `in_progress` (even from `completed` or
`cancelled`), and `update_session` applies whatever status the request
carries; the payment toggle, by contrast, never changes any session's
status. -/
theorem sessionStatus_not_protected
    (store : Store) (data : StartActiveSessionRequest) (now sid : Nat)
    (st' : Store) (r : ActiveSessionResult)
    (hsid : data.session_id = some sid)
    (hstep : startActiveSession store data now = .ok (st', r)) :
    (∀ s ∈ st'.sessions, s.id = sid → s.status = SessionStatus.in_progress) ∧
    (∀ (st2 st2' : Store) (sid2 now2 : Nat),
        toggleSessionPayment st2 sid2 now2 = .ok st2' →
        st2'.sessions.map (fun t => t.status) = st2.sessions.map (fun t => t.status)) ∧
    (∀ (st3 st3' : Store) (sid3 : Nat) (upd : SessionUpdate) (stat : SessionStatus),
        upd.status = some stat → updateSession st3 sid3 upd = .ok st3' →
        ∀ s ∈ st3'.sessions, s.id = sid3 → s.status = stat) := by
  refine ⟨?_, ?_, ?_⟩
  · unfold startActiveSession at hstep
    rw [hsid] at hstep
    dsimp only at hstep
    cases hf : findSession store sid with
    | none => rw [hf] at hstep; exact absurd hstep (by simp)
    | some s0 =>
      rw [hf] at hstep
      have hst : st' = { store with sessions := store.sessions.map (fun t =>
          if t.id == sid then { t with status := .in_progress, started_at := some now }
          else t) } := by
        cases hstep
        rfl
      subst hst
      intro s hs hid
      obtain ⟨t, _, hft⟩ := List.mem_map.mp hs
      by_cases ht : t.id == sid
      · rw [if_pos ht] at hft
        rw [← hft]
      · rw [if_neg ht] at hft
        subst hft
        exact absurd (by simp [hid]) ht
  · intro st2 st2' sid2 now2 hstep2
    unfold toggleSessionPayment at hstep2
    cases hf : findSession st2 sid2 with
    | none => rw [hf] at hstep2; exact absurd hstep2 (by simp)
    | some s0 =>
      rw [hf] at hstep2
      have hst : st2' = { st2 with sessions := st2.sessions.map (fun t =>
          if t.id == sid2 then
            { t with is_paid := !t.is_paid, paid_at := if !t.is_paid then some now2 else none }
          else t) } := by
        cases hstep2
        rfl
      subst hst
      dsimp only
      rw [List.map_map]
      apply List.map_congr_left
      intro t _
      by_cases ht : t.id == sid2
      · simp only [Function.comp_def, if_pos ht]
      · simp only [Function.comp_def, if_neg ht]
  · intro st3 st3' sid3 upd stat hupd hstep3
    unfold updateSession at hstep3
    cases hf : findSession st3 sid3 with
    | none => rw [hf] at hstep3; exact absurd hstep3 (by simp)
    | some s0 =>
      rw [hf] at hstep3
      have hst : st3' = { st3 with sessions := st3.sessions.map (fun t =>
          if t.id == sid3 then applySessionUpdate t upd else t) } := by
        cases hstep3
        rfl
      subst hst
      intro s hs hid
      obtain ⟨t, _, hft⟩ := List.mem_map.mp hs
      by_cases ht : t.id == sid3
      · rw [if_pos ht] at hft
        rw [← hft]
        unfold applySessionUpdate
        rw [hupd]
        rfl
      · rw [if_neg ht] at hft
        subst hft
        exact absurd (by simp [hid]) ht

/-- Witness for C5's amended theorem at `cex5_store`: restarting the
completed session goes through, and the stated guarantees hold. -/
theorem sessionStatus_not_protected_witness :
    (∀ s ∈ cex5_store'.sessions, s.id = 1 → s.status = SessionStatus.in_progress) ∧
    (∀ (st2 st2' : Store) (sid2 now2 : Nat),
        toggleSessionPayment st2 sid2 now2 = .ok st2' →
        st2'.sessions.map (fun t => t.status) = st2.sessions.map (fun t => t.status)) ∧
    (∀ (st3 st3' : Store) (sid3 : Nat) (upd : SessionUpdate) (stat : SessionStatus),
        upd.status = some stat → updateSession st3 sid3 upd = .ok st3' →
        ∀ s ∈ st3'.sessions, s.id = sid3 → s.status = stat) :=
  sessionStatus_not_protected cex5_store cex5_req 50 1 cex5_store'
    (.single cex5_started) rfl rfl

/-! ## C6 — the ad-hoc start flow fails on the missing trainer_id -/

/-- C6 (code bug): every start request without a `session_id` fails
with an `AttributeError` (HTTP 500) — the handler dereferences
`data.trainer_id`, a field `StartActiveSessionRequest` does not declare
— so neither the 1-client ad-hoc session nor the 2-plus-client group is
ever created and the store is not mutated. -/
theorem startActiveSession_adhoc_500
    (store : Store) (data : StartActiveSessionRequest) (now : Nat)
    (h : data.session_id = none) :
    startActiveSession store data now = .error .internalError := by
  unfold startActiveSession
  rw [h]

/-- Witness for C6's failing input: a valid 1-client start request with
no `session_id`, run on the empty store, errors instead of creating the
ad-hoc session. -/
theorem startActiveSession_adhoc_500_witness :
    startActiveSession {} cw6_data1 50 = .error .internalError :=
  startActiveSession_adhoc_500 {} cw6_data1 50 rfl

/-! ## C9 — soft-delete idempotence -/

/-- Marking a session cancelled by id is an idempotent row function. -/
theorem cancel_mark_idem (sid : Nat) (t : TrainingSession) :
    (if (if t.id == sid then { t with status := SessionStatus.cancelled } else t).id == sid then
      { (if t.id == sid then { t with status := SessionStatus.cancelled } else t) with
        status := SessionStatus.cancelled }
    else (if t.id == sid then { t with status := SessionStatus.cancelled } else t)) =
      (if t.id == sid then { t with status := SessionStatus.cancelled } else t) := by
  by_cases ht : t.id == sid
  · rw [if_pos ht]
    rw [if_pos (show (({ t with status := SessionStatus.cancelled } : TrainingSession).id == sid)
      = true from ht)]
  · rw [if_neg ht, if_neg ht]

/-- C9: cancelling a session is idempotent — if a delete succeeds and
produces `st1`, deleting the same session again succeeds and leaves the
store exactly `st1`: the status stays `cancelled`, no row is removed,
and nothing else changes. -/
theorem deleteSession_idempotent (store : Store) (sid : Nat) (st1 : Store)
    (h : deleteSession store sid = .ok st1) :
    deleteSession st1 sid = .ok st1 := by
  unfold deleteSession at h ⊢
  cases hf : findSession store sid with
  | none => rw [hf] at h; exact absurd h (by simp)
  | some s =>
    rw [hf] at h
    have hst : st1 =
        { store with sessions := store.sessions.map (fun t =>
            if t.id == sid then { t with status := .cancelled } else t) } := by
      cases h
      rfl
    subst hst
    have hid : (fun t : TrainingSession =>
        (if t.id == sid then { t with status := SessionStatus.cancelled } else t).id == sid) =
        (fun t : TrainingSession => t.id == sid) := by
      funext t
      by_cases ht : t.id == sid <;> simp [ht]
    have hfind : findSession
        { store with sessions := store.sessions.map (fun t =>
            if t.id == sid then { t with status := .cancelled } else t) } sid =
        some (if s.id == sid then { s with status := .cancelled } else s) := by
      unfold findSession at hf ⊢
      rw [List.find?_map, Function.comp_def]
      simp only [hid]
      rw [hf]
      rfl
    rw [hfind]
    refine congrArg Except.ok ?_
    dsimp only
    congr 1
    rw [List.map_map]
    apply List.map_congr_left
    intro t _
    exact cancel_mark_idem sid t

/-- Witness for C9: cancelling session 1 of `cw9_store` yields
`cw9_store1`; cancelling it again returns `cw9_store1` unchanged. -/
theorem deleteSession_idempotent_witness :
    deleteSession cw9_store1 1 = .ok cw9_store1 :=
  deleteSession_idempotent cw9_store 1 cw9_store1 (by rfl)

/-! ## C7 — lap times by location -/

/-- `List.min?` on naturals is invariant under permutation. -/
theorem min?_eq_of_perm {l l' : List Nat} (h : l.Perm l') : l.min? = l'.min? := by
  have hor : ∀ a b : Nat, min a b = a ∨ min a b = b := fun a b => by
    rw [Nat.min_def]
    split <;> simp
  have hle : ∀ a b c : Nat, a ≤ min b c ↔ a ≤ b ∧ a ≤ c := fun a b c => Nat.le_min
  cases hm : l.min? with
  | none =>
    rw [List.min?_eq_none_iff] at hm
    subst hm
    rw [h.symm.eq_nil]
    rfl
  | some a =>
    have h1 := (List.min?_eq_some_iff Nat.le_refl hor hle).mp hm
    symm
    rw [List.min?_eq_some_iff Nat.le_refl hor hle]
    exact ⟨h.mem_iff.mp h1.1, fun b hb => h1.2 b (h.mem_iff.mpr hb)⟩

/-- Extending one session bucket (or appending a new one) appends the
row's laps to the flattened lap list, up to permutation. -/
theorem addRowSessions_flatten (sid rec : Nat) (laps : List Nat) :
    ∀ bs : List SessAcc,
      List.Perm ((addRowSessions sid rec laps bs).map (fun b => b.lap_times_ms)).flatten
        ((bs.map (fun b => b.lap_times_ms)).flatten ++ laps)
  | [] => by simp [addRowSessions]
  | b :: bs => by
    by_cases hb : b.session_id == sid
    · simp only [addRowSessions, if_pos hb, List.map_cons, List.flatten_cons]
      rw [List.append_assoc, List.append_assoc]
      exact List.Perm.append_left b.lap_times_ms List.perm_append_comm
    · simp only [addRowSessions, if_neg hb, List.map_cons, List.flatten_cons]
      rw [List.append_assoc]
      exact List.Perm.append_left b.lap_times_ms (addRowSessions_flatten sid rec laps bs)

/-- The grouping step preserves the bucket invariant: each location's
`all_times` is a permutation of its session buckets' flattened laps. -/
theorem addRow_inv (row : LapRow) :
    ∀ acc : List LocAcc,
      (∀ L ∈ acc, List.Perm L.all_times ((L.sessions.map (fun b => b.lap_times_ms)).flatten)) →
      ∀ L ∈ addRow acc row,
        List.Perm L.all_times ((L.sessions.map (fun b => b.lap_times_ms)).flatten)
  | [], _, L, hL => by
    simp only [addRow, List.mem_singleton] at hL
    subst hL
    simp
  | A :: As, hinv, L, hL => by
    by_cases hA : A.location_id == row.location_id
    · rw [addRow, if_pos hA] at hL
      rcases List.mem_cons.mp hL with rfl | hL'
      · refine ((hinv A (List.mem_cons_self _ _)).append_right row.laps).trans ?_
        exact (addRowSessions_flatten row.session_id row.scheduled_at row.laps
          A.sessions).symm
      · exact hinv L (List.mem_cons_of_mem _ hL')
    · rw [addRow, if_neg hA] at hL
      rcases List.mem_cons.mp hL with rfl | hL'
      · exact hinv L (List.mem_cons_self _ _)
      · exact addRow_inv row As (fun M hM => hinv M (List.mem_cons_of_mem _ hM)) L hL'

/-- The bucket invariant holds of every location bucket produced by the
grouping loop. -/
theorem buildLocMap_inv :
    ∀ (rows : List LapRow) (acc : List LocAcc),
      (∀ L ∈ acc, List.Perm L.all_times ((L.sessions.map (fun b => b.lap_times_ms)).flatten)) →
      ∀ L ∈ rows.foldl addRow acc,
        List.Perm L.all_times ((L.sessions.map (fun b => b.lap_times_ms)).flatten)
  | [], _, hacc => hacc
  | row :: rows, acc, hacc =>
    buildLocMap_inv rows (addRow acc row) (addRow_inv row acc hacc)

/-- Dropping the empty session buckets does not change the flattened
lap list. -/
theorem flatten_map_filter_nonEmpty :
    ∀ bs : List SessAcc,
      ((bs.filter (fun b => !b.lap_times_ms.isEmpty)).map
        (fun b => b.lap_times_ms)).flatten =
        (bs.map (fun b => b.lap_times_ms)).flatten
  | [] => rfl
  | b :: bs => by
    by_cases hb : b.lap_times_ms.isEmpty
    · have hnil : b.lap_times_ms = [] := List.isEmpty_iff.mp hb
      simp [List.filter_cons, hb, hnil, flatten_map_filter_nonEmpty bs]
    · simp [List.filter_cons, hb, flatten_map_filter_nonEmpty bs]

/-- C7: every reported location carries a nonempty flattened lap list
whose `len` / `min` / truncated mean are the reported statistics, the
per-session breakdown carries the same three statistics of its own laps
and is sorted by recency descending — and the concrete two-session
example yields `total_laps = 5`, `best_time_ms = 41000`,
`average_time_ms = 43000` with sessions newest-first.  Locations with
no captured laps are omitted (every entry satisfies
`0 < total_laps`). -/
theorem getClientLapTimesByLocation_spec (store : Store) (cid : Nat) :
    (∀ e ∈ getClientLapTimesByLocation store cid,
      0 < e.total_laps ∧
      e.total_laps = ((e.sessions.map (fun se => se.lap_times_ms)).flatten).length ∧
      e.best_time_ms = ((e.sessions.map (fun se => se.lap_times_ms)).flatten).min?.getD 0 ∧
      e.average_time_ms =
        ((e.sessions.map (fun se => se.lap_times_ms)).flatten).sum /
          ((e.sessions.map (fun se => se.lap_times_ms)).flatten).length ∧
      e.sessions.Pairwise (fun a b => b.recorded_at ≤ a.recorded_at) ∧
      (∀ se ∈ e.sessions,
        se.lap_times_ms ≠ [] ∧
        se.total_laps = se.lap_times_ms.length ∧
        se.best_time_ms = se.lap_times_ms.min?.getD 0 ∧
        se.average_time_ms = se.lap_times_ms.sum / se.lap_times_ms.length)) ∧
    getClientLapTimesByLocation cw7_store 3 =
      [{ location_id := some 11
         location_name := "Pista"
         total_laps := 5
         best_time_ms := 41000
         average_time_ms := 43000
         sessions :=
           [{ session_id := 2, recorded_at := 60, lap_times_ms := [42000, 41000],
              total_laps := 2, best_time_ms := 41000, average_time_ms := 41500 },
            { session_id := 1, recorded_at := 50, lap_times_ms := [45000, 43000, 44000],
              total_laps := 3, best_time_ms := 43000, average_time_ms := 44000 }] }] := by
  constructor
  · intro e he
    obtain ⟨L, hL, hfe⟩ := List.mem_filterMap.mp he
    have hinv : List.Perm L.all_times ((L.sessions.map (fun b => b.lap_times_ms)).flatten) :=
      buildLocMap_inv (lapRows store cid) [] (by intro M hM; simp at hM) L hL
    by_cases hemp : L.all_times.isEmpty
    · rw [if_pos hemp] at hfe
      exact absurd hfe (by simp)
    · rw [if_neg hemp] at hfe
      have he' : e =
          { location_id := L.location_id
            location_name := L.location_name
            total_laps := L.all_times.length
            best_time_ms := L.all_times.min?.getD 0
            average_time_ms := L.all_times.sum / L.all_times.length
            sessions := ((L.sessions.filter (fun b => !b.lap_times_ms.isEmpty)).map
              mkSessionLapTimes).insertionSort bySessStatsDesc } := by
        cases hfe
        rfl
      subst he'
      have hperm : List.Perm ((((L.sessions.filter (fun b => !b.lap_times_ms.isEmpty)).map
            mkSessionLapTimes).insertionSort bySessStatsDesc).map
              (fun se => se.lap_times_ms)).flatten L.all_times := by
        refine (List.Perm.flatten (List.Perm.map _
          (List.perm_insertionSort bySessStatsDesc _))).trans ?_
        rw [List.map_map]
        have hmk : ((L.sessions.filter (fun b => !b.lap_times_ms.isEmpty)).map
            ((fun se : SessionLapTimes => se.lap_times_ms) ∘ mkSessionLapTimes)) =
            ((L.sessions.filter (fun b => !b.lap_times_ms.isEmpty)).map
              (fun b => b.lap_times_ms)) := by
          apply List.map_congr_left
          intro b _
          rfl
        rw [hmk, flatten_map_filter_nonEmpty]
        exact hinv.symm
      refine ⟨?_, ?_, ?_, ?_, ?_, ?_⟩
      · have : L.all_times ≠ [] := fun hc => hemp (by simp [hc])
        have := List.length_pos.mpr this
        exact this
      · exact (hperm.length_eq).symm
      · rw [min?_eq_of_perm hperm]
      · rw [hperm.sum_eq, hperm.length_eq]
      · exact List.sorted_insertionSort bySessStatsDesc _
      · intro se hse
        have hse' : se ∈ (L.sessions.filter (fun b => !b.lap_times_ms.isEmpty)).map
            mkSessionLapTimes :=
          (List.perm_insertionSort bySessStatsDesc _).mem_iff.mp hse
        obtain ⟨b, hb, rfl⟩ := List.mem_map.mp hse'
        have hbne : b.lap_times_ms ≠ [] := by
          have := (List.mem_filter.mp hb).2
          simpa [List.isEmpty_iff] using this
        exact ⟨hbne, rfl, rfl, rfl⟩
  · decide

/-- Witness for C7: the concrete example conjunct at the two-session
store — total 5 laps, best 41000 ms, truncated mean 43000 ms, sessions
newest-first. -/
theorem getClientLapTimesByLocation_spec_witness :
    getClientLapTimesByLocation cw7_store 3 =
      [{ location_id := some 11
         location_name := "Pista"
         total_laps := 5
         best_time_ms := 41000
         average_time_ms := 43000
         sessions :=
           [{ session_id := 2, recorded_at := 60, lap_times_ms := [42000, 41000],
              total_laps := 2, best_time_ms := 41000, average_time_ms := 41500 },
            { session_id := 1, recorded_at := 50, lap_times_ms := [45000, 43000, 44000],
              total_laps := 3, best_time_ms := 43000, average_time_ms := 44000 }] }] :=
  (getClientLapTimesByLocation_spec {} 0).2

/-! ## C10 — exercise history -/

/-- Membership in the exercise-history join: a pair of an exercise row
and a session row of the client, linked by `session_id`. -/
theorem mem_historyRowsBase (store : Store) (cid : Nat)
    (r : SessionExercise × TrainingSession) :
    r ∈ historyRowsBase store cid ↔
      r.1 ∈ store.exercises ∧ r.2 ∈ store.sessions ∧
      r.1.session_id = some r.2.id ∧ r.2.client_id = cid := by
  unfold historyRowsBase
  rw [List.mem_flatMap]
  constructor
  · rintro ⟨ex, hex, hr⟩
    obtain ⟨s, hs, hrs⟩ := List.mem_map.mp hr
    obtain ⟨hsmem, hpred⟩ := List.mem_filter.mp hs
    subst hrs
    simp only [Bool.and_eq_true, beq_iff_eq] at hpred
    exact ⟨hex, hsmem, hpred.1, hpred.2⟩
  · rintro ⟨h1, h2, h3, h4⟩
    exact ⟨r.1, h1,
      List.mem_map_of_mem (fun s => (r.1, s))
        (List.mem_filter.mpr ⟨h2, by simp [h3, h4]⟩)⟩

/-- Membership in the ordered exercise-history rows: join membership
plus the name filters of the query. -/
theorem mem_historyRows (store : Store) (cid : Nat) (fn : Option String)
    (r : SessionExercise × TrainingSession) :
    r ∈ historyRows store cid fn ↔
      r.1 ∈ store.exercises ∧ r.2 ∈ store.sessions ∧
      r.1.session_id = some r.2.id ∧ r.2.client_id = cid ∧
      r.1.custom_name.isSome = true ∧
      r.1.custom_name ≠ some "Toma de Tiempo BMX" ∧
      ((fn.getD "").isEmpty = false → r.1.custom_name = some (fn.getD "")) := by
  unfold historyRows
  rw [(List.perm_insertionSort byPairScheduledDesc _).mem_iff]
  by_cases hf : (fn.getD "").isEmpty
  · rw [if_pos hf]
    unfold historyFiltered
    rw [List.mem_filter, mem_historyRowsBase]
    simp only [Bool.and_eq_true, Bool.not_eq_true', beq_eq_false_iff_ne, ne_eq, hf]
    constructor
    · rintro ⟨⟨h1, h2, h3, h4⟩, h5, h6⟩
      exact ⟨h1, h2, h3, h4, h5, h6, fun hc => absurd hc (by simp)⟩
    · rintro ⟨h1, h2, h3, h4, h5, h6, _⟩
      exact ⟨⟨h1, h2, h3, h4⟩, h5, h6⟩
  · rw [if_neg hf]
    rw [List.mem_filter]
    unfold historyFiltered
    rw [List.mem_filter, mem_historyRowsBase]
    simp only [Bool.and_eq_true, Bool.not_eq_true', beq_eq_false_iff_ne, ne_eq, beq_iff_eq]
    constructor
    · rintro ⟨⟨⟨h1, h2, h3, h4⟩, h5, h6⟩, h7⟩
      exact ⟨h1, h2, h3, h4, h5, h6, fun _ => h7⟩
    · rintro ⟨h1, h2, h3, h4, h5, h6, h7⟩
      exact ⟨⟨⟨h1, h2, h3, h4⟩, h5, h6⟩, h7 (by simp [Bool.of_not_eq_true hf])⟩

/-- C10: for every client, the exercise-history response lists exactly
the client's session exercises with a non-null `custom_name` different
from the BMX sentinel (restricted to exact matches when a non-empty
`exercise_name` filter is given), ordered by session date descending,
together with the distinct exercise names encountered, sorted
alphabetically. -/
theorem getClientExerciseHistory_spec (store : Store) (cid : Nat) (fn : Option String) :
    ((getClientExerciseHistory store cid fn).history.Pairwise
      (fun a b => b.date ≤ a.date)) ∧
    (∀ e, e ∈ (getClientExerciseHistory store cid fn).history ↔
      ∃ ex s, ex ∈ store.exercises ∧ s ∈ store.sessions ∧
        ex.session_id = some s.id ∧ s.client_id = cid ∧
        ex.custom_name = some e.exercise_name ∧
        e.exercise_name ≠ "Toma de Tiempo BMX" ∧
        ((fn.getD "").isEmpty = false → e.exercise_name = fn.getD "") ∧
        e = { session_id := s.id, date := s.scheduled_at,
              exercise_name := e.exercise_name, data := ex.data }) ∧
    (getClientExerciseHistory store cid fn).exercises.Pairwise (fun a b => a ≤ b) ∧
    (getClientExerciseHistory store cid fn).exercises.Nodup ∧
    (∀ n, n ∈ (getClientExerciseHistory store cid fn).exercises ↔
      ∃ e ∈ (getClientExerciseHistory store cid fn).history, e.exercise_name = n) := by
  refine ⟨?_, ?_, ?_, ?_, ?_⟩
  · show ((historyRows store cid fn).map _).Pairwise _
    rw [List.pairwise_map]
    have hs : (historyRows store cid fn).Pairwise byPairScheduledDesc := by
      unfold historyRows
      exact List.sorted_insertionSort byPairScheduledDesc _
    exact hs.imp (fun h => h)
  · intro e
    show e ∈ (historyRows store cid fn).map _ ↔ _
    rw [List.mem_map]
    constructor
    · rintro ⟨r, hr, rfl⟩
      obtain ⟨h1, h2, h3, h4, h5, h6, h7⟩ := (mem_historyRows store cid fn r).mp hr
      obtain ⟨v, hv⟩ := Option.isSome_iff_exists.mp h5
      refine ⟨r.1, r.2, h1, h2, h3, h4, ?_, ?_, ?_, ?_⟩
      · simp [hv]
      · intro hc
        apply h6
        rw [hv]
        simp only [hv, Option.getD_some] at hc ⊢
        rw [hc]
      · intro hne
        have := h7 hne
        rw [this]
        simp [this]
      · rfl
    · rintro ⟨ex, s, h1, h2, h3, h4, h5, h6, h7, h8⟩
      refine ⟨(ex, s), (mem_historyRows store cid fn (ex, s)).mpr
        ⟨h1, h2, h3, h4, by simp [h5], by simp [h5]; exact h6, ?_⟩, ?_⟩
      · intro hne
        rw [h5, h7 hne]
      · rw [h8]
        simp [h5]
  · show (((historyRows store cid fn).map _).dedup.insertionSort stringAsc).Pairwise _
    exact List.sorted_insertionSort stringAsc _
  · show (((historyRows store cid fn).map _).dedup.insertionSort stringAsc).Nodup
    exact ((List.perm_insertionSort stringAsc _).nodup_iff).mpr (List.nodup_dedup _)
  · intro n
    show n ∈ ((historyRows store cid fn).map _).dedup.insertionSort stringAsc ↔ _
    rw [(List.perm_insertionSort stringAsc _).mem_iff, List.mem_dedup, List.mem_map]
    constructor
    · rintro ⟨r, hr, rfl⟩
      exact ⟨{ session_id := r.2.id, date := r.2.scheduled_at,
               exercise_name := r.1.custom_name.getD "", data := r.1.data },
        List.mem_map_of_mem _ hr, rfl⟩
    · rintro ⟨e, he, rfl⟩
      obtain ⟨r, hr, rfl⟩ := List.mem_map.mp he
      exact ⟨r, hr, rfl⟩

/-- Witness for C10 at `cw10_store` with no filter: history is
date-descending, entries are exactly the named non-sentinel exercises,
and the name list is the sorted distinct set. -/
theorem getClientExerciseHistory_spec_witness :
    ((getClientExerciseHistory cw10_store 3 none).history.Pairwise
      (fun a b => b.date ≤ a.date)) ∧
    (getClientExerciseHistory cw10_store 3 none).exercises.Pairwise (fun a b => a ≤ b) ∧
    (getClientExerciseHistory cw10_store 3 none).exercises.Nodup ∧
    (∀ n, n ∈ (getClientExerciseHistory cw10_store 3 none).exercises ↔
      ∃ e ∈ (getClientExerciseHistory cw10_store 3 none).history, e.exercise_name = n) := by
  obtain ⟨h1, _, h3, h4, h5⟩ := getClientExerciseHistory_spec cw10_store 3 none
  exact ⟨h1, h3, h4, h5⟩

/-! ## C8 — exclusive-or parent-link invariant -/

/-- Transporting the store invariant along unchanged tables. -/
theorem storeXorInvariant_of_eq {st st' : Store}
    (h1 : st'.exercises = st.exercises) (h2 : st'.exerciseSets = st.exerciseSets)
    (ih : StoreXorInvariant st) : StoreXorInvariant st' :=
  ⟨fun ex hex => ih.1 ex (h1 ▸ hex), fun es hes => ih.2 es (h2 ▸ hes)⟩

/-- Every exercise created inside a set carries the parent links the
endpoint hardcodes. -/
theorem mkSetExercises_links (sid gid : Option Nat) (setId : Nat) :
    ∀ (nid : Nat) (xcs : List ExerciseInSetCreate),
      ∀ e ∈ mkSetExercises sid gid setId nid xcs,
        e.session_id = sid ∧ e.session_group_id = gid
  | _, [], e, he => absurd he (List.not_mem_nil e)
  | nid, _ :: rest, e, he => by
    rcases List.mem_cons.mp he with rfl | he'
    · exact ⟨rfl, rfl⟩
    · exact mkSetExercises_links sid gid setId (nid + 1) rest e he'

/-- The `update_exercise_set_exercises` loop never touches the
exercise-set table. -/
theorem updateSetFold_exerciseSets (es : ExerciseSet) (setId : Nat)
    (existingIds : List Nat) :
    ∀ (items : List ExerciseInSetUpdate) (st : Store),
      (items.foldl (updateSetStep es setId existingIds) st).exerciseSets =
        st.exerciseSets
  | [], _ => rfl
  | it :: items, st => by
    rw [List.foldl_cons, updateSetFold_exerciseSets es setId existingIds items]
    unfold updateSetStep
    cases it.id with
    | none => rfl
    | some i =>
      dsimp only
      by_cases hc : existingIds.contains i
      · rw [if_pos hc]
      · rw [if_neg hc]
        rfl

/-- The `update_exercise_set_exercises` loop preserves the exclusive-or
invariant on exercises, provided the parent set itself satisfies it:
updates leave the parent links untouched and creations inherit the
set's links. -/
theorem updateSetFold_exercises_inv (es : ExerciseSet) (setId : Nat)
    (existingIds : List Nat)
    (hxor : xorLink es.session_id es.session_group_id) :
    ∀ (items : List ExerciseInSetUpdate) (st : Store),
      (∀ ex ∈ st.exercises, xorLink ex.session_id ex.session_group_id) →
      ∀ ex ∈ (items.foldl (updateSetStep es setId existingIds) st).exercises,
        xorLink ex.session_id ex.session_group_id
  | [], _, hst => hst
  | it :: items, st, hst => by
    rw [List.foldl_cons]
    apply updateSetFold_exercises_inv es setId existingIds hxor items
    intro ex hex
    have hcreate : ∀ ex' ∈ (createExerciseInSet st es setId it).exercises,
        xorLink ex'.session_id ex'.session_group_id := by
      intro ex' hex'
      unfold createExerciseInSet at hex'
      rcases List.mem_append.mp hex' with hold | hnew
      · exact hst ex' hold
      · rw [List.mem_singleton.mp hnew]
        exact hxor
    unfold updateSetStep at hex
    cases hid : it.id with
    | none =>
      rw [hid] at hex
      exact hcreate ex hex
    | some i =>
      rw [hid] at hex
      dsimp only at hex
      by_cases hc : existingIds.contains i
      · rw [if_pos hc] at hex
        obtain ⟨t, ht, hft⟩ := List.mem_map.mp hex
        by_cases hti : t.id == i
        · rw [if_pos hti] at hft
          subst hft
          exact hst t ht
        · rw [if_neg hti] at hft
          subst hft
          exact hst t ht
      · rw [if_neg hc] at hex
        exact hcreate ex hex

/-- C8: over every store reachable from the empty database through the
modelled API operations, every Session Exercise row and every Exercise
Set row has exactly one of {`session_id`, `session_group_id`} non-null
— never both, never neither. -/
theorem reachable_xor_invariant (store : Store) (h : Reachable store) :
    StoreXorInvariant store := by
  induction h with
  | init =>
    exact ⟨fun ex hex => absurd hex (List.not_mem_nil ex),
           fun es hes => absurd hes (List.not_mem_nil es)⟩
  | insertSession st s _ ih => exact storeXorInvariant_of_eq rfl rfl ih
  | insertGroup st g _ ih => exact storeXorInvariant_of_eq rfl rfl ih
  | createSession st sc st' s _ hstep _ =>
    unfold createSession at hstep
    exact absurd hstep (by simp)
  | createSessionGroup st gd st' g _ hstep _ =>
    unfold createSessionGroup at hstep
    exact absurd hstep (by simp)
  | startActiveSession st data now st' r _ hstep ih =>
    unfold startActiveSession at hstep
    cases hsid : data.session_id with
    | some sid =>
      rw [hsid] at hstep
      dsimp only at hstep
      cases hf : findSession st sid with
      | none => rw [hf] at hstep; exact absurd hstep (by simp)
      | some s =>
        rw [hf] at hstep
        cases hstep
        exact storeXorInvariant_of_eq rfl rfl ih
    | none =>
      rw [hsid] at hstep
      dsimp only at hstep
      exact absurd hstep (by simp)
  | updateSession st sid upd st' _ hstep ih =>
    unfold updateSession at hstep
    cases hf : findSession st sid with
    | none => rw [hf] at hstep; exact absurd hstep (by simp)
    | some s =>
      rw [hf] at hstep
      cases hstep
      exact storeXorInvariant_of_eq rfl rfl ih
  | deleteSession st sid st' _ hstep ih =>
    unfold deleteSession at hstep
    cases hf : findSession st sid with
    | none => rw [hf] at hstep; exact absurd hstep (by simp)
    | some s =>
      rw [hf] at hstep
      cases hstep
      exact storeXorInvariant_of_eq rfl rfl ih
  | toggleSessionPayment st sid now st' _ hstep ih =>
    unfold toggleSessionPayment at hstep
    cases hf : findSession st sid with
    | none => rw [hf] at hstep; exact absurd hstep (by simp)
    | some s =>
      rw [hf] at hstep
      cases hstep
      exact storeXorInvariant_of_eq rfl rfl ih
  | registerClientPayment st cid tid pd now _ ih =>
    exact storeXorInvariant_of_eq rfl rfl ih
  | createSessionExercise st sid xc st' _ hstep ih =>
    unfold createSessionExercise at hstep
    cases hf : findSession st sid with
    | none => rw [hf] at hstep; exact absurd hstep (by simp)
    | some s =>
      rw [hf] at hstep
      cases hstep
      refine ⟨?_, ih.2⟩
      intro ex hex
      rcases List.mem_append.mp hex with hold | hnew
      · exact ih.1 ex hold
      · rw [List.mem_singleton.mp hnew]
        exact Or.inl ⟨rfl, rfl⟩
  | createSessionGroupExercise st gid xc st' _ hstep ih =>
    unfold createSessionGroupExercise at hstep
    cases hf : st.groups.find? (fun g => g.id == gid) with
    | none => rw [hf] at hstep; exact absurd hstep (by simp)
    | some g =>
      rw [hf] at hstep
      cases hstep
      refine ⟨?_, ih.2⟩
      intro ex hex
      rcases List.mem_append.mp hex with hold | hnew
      · exact ih.1 ex hold
      · rw [List.mem_singleton.mp hnew]
        exact Or.inr ⟨rfl, rfl⟩
  | updateSessionExercise st exid upd st' _ hstep ih =>
    unfold updateSessionExercise at hstep
    cases hf : st.exercises.find? (fun e => e.id == exid) with
    | none => rw [hf] at hstep; exact absurd hstep (by simp)
    | some e0 =>
      rw [hf] at hstep
      cases hstep
      refine ⟨?_, ih.2⟩
      intro ex hex
      obtain ⟨t, ht, hft⟩ := List.mem_map.mp hex
      by_cases hti : t.id == exid
      · rw [if_pos hti] at hft
        subst hft
        exact ih.1 t ht
      · rw [if_neg hti] at hft
        subst hft
        exact ih.1 t ht
  | deleteSessionExercise st exid st' _ hstep ih =>
    unfold deleteSessionExercise at hstep
    cases hf : st.exercises.find? (fun e => e.id == exid) with
    | none => rw [hf] at hstep; exact absurd hstep (by simp)
    | some e0 =>
      rw [hf] at hstep
      cases hstep
      exact ⟨fun ex hex => ih.1 ex (List.mem_of_mem_filter hex), ih.2⟩
  | createExerciseSetForSession st sid sd st' _ hstep ih =>
    unfold createExerciseSetForSession at hstep
    cases hf : findSession st sid with
    | none => rw [hf] at hstep; exact absurd hstep (by simp)
    | some s =>
      rw [hf] at hstep
      cases hstep
      constructor
      · intro ex hex
        rcases List.mem_append.mp hex with hold | hnew
        · exact ih.1 ex hold
        · obtain ⟨h1, h2⟩ := mkSetExercises_links (some sid) none _ _ _ ex hnew
          rw [h1, h2]
          exact Or.inl ⟨rfl, rfl⟩
      · intro es hes
        rcases List.mem_append.mp hes with hold | hnew
        · exact ih.2 es hold
        · rw [List.mem_singleton.mp hnew]
          exact Or.inl ⟨rfl, rfl⟩
  | createExerciseSetForGroup st gid sd st' _ hstep ih =>
    unfold createExerciseSetForGroup at hstep
    cases hf : st.groups.find? (fun g => g.id == gid) with
    | none => rw [hf] at hstep; exact absurd hstep (by simp)
    | some g =>
      rw [hf] at hstep
      cases hstep
      constructor
      · intro ex hex
        rcases List.mem_append.mp hex with hold | hnew
        · exact ih.1 ex hold
        · obtain ⟨h1, h2⟩ := mkSetExercises_links none (some gid) _ _ _ ex hnew
          rw [h1, h2]
          exact Or.inr ⟨rfl, rfl⟩
      · intro es hes
        rcases List.mem_append.mp hes with hold | hnew
        · exact ih.2 es hold
        · rw [List.mem_singleton.mp hnew]
          exact Or.inr ⟨rfl, rfl⟩
  | updateExerciseSetExercises st setId items st' _ hstep ih =>
    unfold updateExerciseSetExercises at hstep
    cases hf : st.exerciseSets.find? (fun es => es.id == setId) with
    | none => rw [hf] at hstep; exact absurd hstep (by simp)
    | some es =>
      rw [hf] at hstep
      cases hstep
      have hxor : xorLink es.session_id es.session_group_id :=
        ih.2 es (List.mem_of_find?_eq_some hf)
      constructor
      · intro ex hex
        have hex' := List.mem_of_mem_filter hex
        exact updateSetFold_exercises_inv es setId _ hxor items st ih.1 ex hex'
      · intro es' hes'
        have heq := updateSetFold_exerciseSets es setId
          ((st.exercises.filter (fun e => e.exercise_set_id == some setId)).map
            (fun e => e.id)) items st
        exact ih.2 es' (heq ▸ hes')
  | deleteExerciseSet st setId st' _ hstep ih =>
    unfold deleteExerciseSet at hstep
    cases hf : st.exerciseSets.find? (fun es => es.id == setId) with
    | none => rw [hf] at hstep; exact absurd hstep (by simp)
    | some es =>
      rw [hf] at hstep
      cases hstep
      exact ⟨fun ex hex => ih.1 ex (List.mem_of_mem_filter hex),
             fun es' hes' => ih.2 es' (List.mem_of_mem_filter hes')⟩
  | saveLapTimes st sid req st' _ hstep ih =>
    unfold saveLapTimes at hstep
    cases hf : findSession st sid with
    | none => rw [hf] at hstep; exact absurd hstep (by simp)
    | some s =>
      rw [hf] at hstep
      cases hstep
      refine ⟨?_, ih.2⟩
      intro ex hex
      rcases List.mem_append.mp hex with hold | hnew
      · exact ih.1 ex hold
      · rw [List.mem_singleton.mp hnew]
        exact Or.inl ⟨rfl, rfl⟩

/-- Witness for C8: a store reached by inserting a session row and then
creating a session exercise on it through the API satisfies the
exclusive-or invariant; the reachability hypothesis is discharged by
concrete steps from the empty store, and the resulting store holds an
exercise row with `session_id` set and `session_group_id` null. -/
theorem reachable_xor_invariant_witness :
    StoreXorInvariant cw8_store :=
  reachable_xor_invariant cw8_store
    (Reachable.createSessionExercise _ 1 { custom_name := some "Sentadilla" } cw8_store
      (Reachable.insertSession {} cw8_session Reachable.init) (by rfl))

end TrainerPro
